import Mathlib

/-!
Mood-Travel-App cloud functions: feature encoding and retraining bookkeeping.

A shallow embedding of `functions/index.js`.

* JavaScript numbers are rationals (`ℚ`); the only transcendental value, the
  result of `Math.log1p`, is kept symbolic (`Feature.log1p`).
* A JavaScript value that can come out of a lookup in an object literal is a
  `JsValue`; the lookup walks the prototype chain, as `obj[key]` does.
* `String.prototype.toLowerCase` is the Unicode default lowercase conversion,
  with the case tables of Unicode 14.0.
* A place document is a record of optional fields, typed as the JSDoc of the
  source types them (`activities` an array of strings, `caption` and `type`
  strings).
* The document store is passed explicitly; an operation of the store that can
  throw reads its outcome from `Faults`.
-/

set_option autoImplicit false

namespace MoodTravel

/-! ## JavaScript values -/

/-- Values that the lookups of this program can produce. `protoMember k` is the
member `k` that every object literal inherits from `Object.prototype` (a
function, or the prototype object itself for `__proto__`). -/
inductive JsValue where
  | undefined : JsValue
  | number (q : ℚ) : JsValue
  | string (s : String) : JsValue
  | protoMember (key : String) : JsValue
  deriving DecidableEq, Repr

/-- JavaScript truthiness (`ToBoolean`) of a value. -/
def JsValue.truthy : JsValue → Bool
  | .undefined => false
  | .number q => decide (q ≠ 0)
  | .string s => decide (s ≠ "")
  | .protoMember _ => true

/-- The operator `a || b`. -/
def jsOr (a b : JsValue) : JsValue :=
  if a.truthy then a else b

/-- The operator `a || b` on two numbers: `0` is the falsy number. -/
def numOr (a b : ℚ) : ℚ :=
  if a ≠ 0 then a else b

/-- Names of the members every object literal inherits from `Object.prototype`. -/
def objectPrototypeKeys : List String :=
  ["constructor", "__defineGetter__", "__defineSetter__", "hasOwnProperty",
   "__lookupGetter__", "__lookupSetter__", "isPrototypeOf", "propertyIsEnumerable",
   "toString", "valueOf", "__proto__", "toLocaleString"]

/-- The property key `ToPropertyKey(v)` of a string-or-undefined value. -/
def propertyKey : Option String → String
  | some s => s
  | none => "undefined"

/-- The expression `obj[key]` for an object literal with the given own
properties: own property first, then `Object.prototype`, else `undefined`. -/
def objectGet (own : List (String × JsValue)) (key : Option String) : JsValue :=
  match own.lookup (propertyKey key) with
  | some v => v
  | none =>
    if propertyKey key ∈ objectPrototypeKeys then .protoMember (propertyKey key)
    else .undefined

/-- The method `String.prototype.includes` with an ASCII needle: the needle occurs
as a contiguous run of characters of the text. -/
def includes (text keyword : String) : Bool :=
  decide (keyword.data <:+: text.data)

/-- The simple lowercase mappings of the Unicode character database (version
14.0), as runs `(first, last, step, lowerFirst)`: a code point `c` with
`first ≤ c ≤ last` and `c - first` a multiple of `step` maps to
`lowerFirst + (c - first)`; every other code point maps to itself. U+0130 and
U+03A3, which have a mapping of their own in `lowercaseChars`, are not listed. -/
def lowercaseRuns : List (Nat × Nat × Nat × Nat) :=
  [(0x0041, 0x005A, 1, 0x0061), (0x00C0, 0x00D6, 1, 0x00E0), (0x00D8, 0x00DE, 1, 0x00F8),
   (0x0100, 0x012E, 2, 0x0101), (0x0132, 0x0136, 2, 0x0133), (0x0139, 0x0147, 2, 0x013A),
   (0x014A, 0x0176, 2, 0x014B), (0x0178, 0x0178, 1, 0x00FF), (0x0179, 0x017D, 2, 0x017A),
   (0x0181, 0x0181, 1, 0x0253), (0x0182, 0x0184, 2, 0x0183), (0x0186, 0x0186, 1, 0x0254),
   (0x0187, 0x0187, 1, 0x0188), (0x0189, 0x018A, 1, 0x0256), (0x018B, 0x018B, 1, 0x018C),
   (0x018E, 0x018E, 1, 0x01DD), (0x018F, 0x018F, 1, 0x0259), (0x0190, 0x0190, 1, 0x025B),
   (0x0191, 0x0191, 1, 0x0192), (0x0193, 0x0193, 1, 0x0260), (0x0194, 0x0194, 1, 0x0263),
   (0x0196, 0x0196, 1, 0x0269), (0x0197, 0x0197, 1, 0x0268), (0x0198, 0x0198, 1, 0x0199),
   (0x019C, 0x019C, 1, 0x026F), (0x019D, 0x019D, 1, 0x0272), (0x019F, 0x019F, 1, 0x0275),
   (0x01A0, 0x01A4, 2, 0x01A1), (0x01A6, 0x01A6, 1, 0x0280), (0x01A7, 0x01A7, 1, 0x01A8),
   (0x01A9, 0x01A9, 1, 0x0283), (0x01AC, 0x01AC, 1, 0x01AD), (0x01AE, 0x01AE, 1, 0x0288),
   (0x01AF, 0x01AF, 1, 0x01B0), (0x01B1, 0x01B2, 1, 0x028A), (0x01B3, 0x01B5, 2, 0x01B4),
   (0x01B7, 0x01B7, 1, 0x0292), (0x01B8, 0x01B8, 1, 0x01B9), (0x01BC, 0x01BC, 1, 0x01BD),
   (0x01C4, 0x01C4, 1, 0x01C6), (0x01C5, 0x01C5, 1, 0x01C6), (0x01C7, 0x01C7, 1, 0x01C9),
   (0x01C8, 0x01C8, 1, 0x01C9), (0x01CA, 0x01CA, 1, 0x01CC), (0x01CB, 0x01DB, 2, 0x01CC),
   (0x01DE, 0x01EE, 2, 0x01DF), (0x01F1, 0x01F1, 1, 0x01F3), (0x01F2, 0x01F4, 2, 0x01F3),
   (0x01F6, 0x01F6, 1, 0x0195), (0x01F7, 0x01F7, 1, 0x01BF), (0x01F8, 0x021E, 2, 0x01F9),
   (0x0220, 0x0220, 1, 0x019E), (0x0222, 0x0232, 2, 0x0223), (0x023A, 0x023A, 1, 0x2C65),
   (0x023B, 0x023B, 1, 0x023C), (0x023D, 0x023D, 1, 0x019A), (0x023E, 0x023E, 1, 0x2C66),
   (0x0241, 0x0241, 1, 0x0242), (0x0243, 0x0243, 1, 0x0180), (0x0244, 0x0244, 1, 0x0289),
   (0x0245, 0x0245, 1, 0x028C), (0x0246, 0x024E, 2, 0x0247), (0x0370, 0x0372, 2, 0x0371),
   (0x0376, 0x0376, 1, 0x0377), (0x037F, 0x037F, 1, 0x03F3), (0x0386, 0x0386, 1, 0x03AC),
   (0x0388, 0x038A, 1, 0x03AD), (0x038C, 0x038C, 1, 0x03CC), (0x038E, 0x038F, 1, 0x03CD),
   (0x0391, 0x03A1, 1, 0x03B1), (0x03A4, 0x03AB, 1, 0x03C4), (0x03CF, 0x03CF, 1, 0x03D7),
   (0x03D8, 0x03EE, 2, 0x03D9), (0x03F4, 0x03F4, 1, 0x03B8), (0x03F7, 0x03F7, 1, 0x03F8),
   (0x03F9, 0x03F9, 1, 0x03F2), (0x03FA, 0x03FA, 1, 0x03FB), (0x03FD, 0x03FF, 1, 0x037B),
   (0x0400, 0x040F, 1, 0x0450), (0x0410, 0x042F, 1, 0x0430), (0x0460, 0x0480, 2, 0x0461),
   (0x048A, 0x04BE, 2, 0x048B), (0x04C0, 0x04C0, 1, 0x04CF), (0x04C1, 0x04CD, 2, 0x04C2),
   (0x04D0, 0x052E, 2, 0x04D1), (0x0531, 0x0556, 1, 0x0561), (0x10A0, 0x10C5, 1, 0x2D00),
   (0x10C7, 0x10C7, 1, 0x2D27), (0x10CD, 0x10CD, 1, 0x2D2D), (0x13A0, 0x13EF, 1, 0xAB70),
   (0x13F0, 0x13F5, 1, 0x13F8), (0x1C90, 0x1CBA, 1, 0x10D0), (0x1CBD, 0x1CBF, 1, 0x10FD),
   (0x1E00, 0x1E94, 2, 0x1E01), (0x1E9E, 0x1E9E, 1, 0x00DF), (0x1EA0, 0x1EFE, 2, 0x1EA1),
   (0x1F08, 0x1F0F, 1, 0x1F00), (0x1F18, 0x1F1D, 1, 0x1F10), (0x1F28, 0x1F2F, 1, 0x1F20),
   (0x1F38, 0x1F3F, 1, 0x1F30), (0x1F48, 0x1F4D, 1, 0x1F40), (0x1F59, 0x1F5F, 2, 0x1F51),
   (0x1F68, 0x1F6F, 1, 0x1F60), (0x1F88, 0x1F8F, 1, 0x1F80), (0x1F98, 0x1F9F, 1, 0x1F90),
   (0x1FA8, 0x1FAF, 1, 0x1FA0), (0x1FB8, 0x1FB9, 1, 0x1FB0), (0x1FBA, 0x1FBB, 1, 0x1F70),
   (0x1FBC, 0x1FBC, 1, 0x1FB3), (0x1FC8, 0x1FCB, 1, 0x1F72), (0x1FCC, 0x1FCC, 1, 0x1FC3),
   (0x1FD8, 0x1FD9, 1, 0x1FD0), (0x1FDA, 0x1FDB, 1, 0x1F76), (0x1FE8, 0x1FE9, 1, 0x1FE0),
   (0x1FEA, 0x1FEB, 1, 0x1F7A), (0x1FEC, 0x1FEC, 1, 0x1FE5), (0x1FF8, 0x1FF9, 1, 0x1F78),
   (0x1FFA, 0x1FFB, 1, 0x1F7C), (0x1FFC, 0x1FFC, 1, 0x1FF3), (0x2126, 0x2126, 1, 0x03C9),
   (0x212A, 0x212A, 1, 0x006B), (0x212B, 0x212B, 1, 0x00E5), (0x2132, 0x2132, 1, 0x214E),
   (0x2160, 0x216F, 1, 0x2170), (0x2183, 0x2183, 1, 0x2184), (0x24B6, 0x24CF, 1, 0x24D0),
   (0x2C00, 0x2C2F, 1, 0x2C30), (0x2C60, 0x2C60, 1, 0x2C61), (0x2C62, 0x2C62, 1, 0x026B),
   (0x2C63, 0x2C63, 1, 0x1D7D), (0x2C64, 0x2C64, 1, 0x027D), (0x2C67, 0x2C6B, 2, 0x2C68),
   (0x2C6D, 0x2C6D, 1, 0x0251), (0x2C6E, 0x2C6E, 1, 0x0271), (0x2C6F, 0x2C6F, 1, 0x0250),
   (0x2C70, 0x2C70, 1, 0x0252), (0x2C72, 0x2C72, 1, 0x2C73), (0x2C75, 0x2C75, 1, 0x2C76),
   (0x2C7E, 0x2C7F, 1, 0x023F), (0x2C80, 0x2CE2, 2, 0x2C81), (0x2CEB, 0x2CED, 2, 0x2CEC),
   (0x2CF2, 0x2CF2, 1, 0x2CF3), (0xA640, 0xA66C, 2, 0xA641), (0xA680, 0xA69A, 2, 0xA681),
   (0xA722, 0xA72E, 2, 0xA723), (0xA732, 0xA76E, 2, 0xA733), (0xA779, 0xA77B, 2, 0xA77A),
   (0xA77D, 0xA77D, 1, 0x1D79), (0xA77E, 0xA786, 2, 0xA77F), (0xA78B, 0xA78B, 1, 0xA78C),
   (0xA78D, 0xA78D, 1, 0x0265), (0xA790, 0xA792, 2, 0xA791), (0xA796, 0xA7A8, 2, 0xA797),
   (0xA7AA, 0xA7AA, 1, 0x0266), (0xA7AB, 0xA7AB, 1, 0x025C), (0xA7AC, 0xA7AC, 1, 0x0261),
   (0xA7AD, 0xA7AD, 1, 0x026C), (0xA7AE, 0xA7AE, 1, 0x026A), (0xA7B0, 0xA7B0, 1, 0x029E),
   (0xA7B1, 0xA7B1, 1, 0x0287), (0xA7B2, 0xA7B2, 1, 0x029D), (0xA7B3, 0xA7B3, 1, 0xAB53),
   (0xA7B4, 0xA7C2, 2, 0xA7B5), (0xA7C4, 0xA7C4, 1, 0xA794), (0xA7C5, 0xA7C5, 1, 0x0282),
   (0xA7C6, 0xA7C6, 1, 0x1D8E), (0xA7C7, 0xA7C9, 2, 0xA7C8), (0xA7D0, 0xA7D0, 1, 0xA7D1),
   (0xA7D6, 0xA7D8, 2, 0xA7D7), (0xA7F5, 0xA7F5, 1, 0xA7F6), (0xFF21, 0xFF3A, 1, 0xFF41),
   (0x10400, 0x10427, 1, 0x10428), (0x104B0, 0x104D3, 1, 0x104D8), (0x10570, 0x1057A, 1, 0x10597),
   (0x1057C, 0x1058A, 1, 0x105A3), (0x1058C, 0x10592, 1, 0x105B3), (0x10594, 0x10595, 1, 0x105BB),
   (0x10C80, 0x10CB2, 1, 0x10CC0), (0x118A0, 0x118BF, 1, 0x118C0), (0x16E40, 0x16E5F, 1, 0x16E60),
   (0x1E900, 0x1E921, 1, 0x1E922)]

/-- The ranges of the code points with the Unicode property `Cased`. -/
def casedRanges : List (Nat × Nat) :=
  [(0x0041, 0x005A), (0x0061, 0x007A), (0x00AA, 0x00AA), (0x00B5, 0x00B5), (0x00BA, 0x00BA),
   (0x00C0, 0x00D6), (0x00D8, 0x00F6), (0x00F8, 0x01BA), (0x01BC, 0x01BF), (0x01C4, 0x0293),
   (0x0295, 0x02B8), (0x02C0, 0x02C1), (0x02E0, 0x02E4), (0x0345, 0x0345), (0x0370, 0x0373),
   (0x0376, 0x0377), (0x037A, 0x037D), (0x037F, 0x037F), (0x0386, 0x0386), (0x0388, 0x038A),
   (0x038C, 0x038C), (0x038E, 0x03A1), (0x03A3, 0x03F5), (0x03F7, 0x0481), (0x048A, 0x052F),
   (0x0531, 0x0556), (0x0560, 0x0588), (0x10A0, 0x10C5), (0x10C7, 0x10C7), (0x10CD, 0x10CD),
   (0x10D0, 0x10FA), (0x10FD, 0x10FF), (0x13A0, 0x13F5), (0x13F8, 0x13FD), (0x1C80, 0x1C88),
   (0x1C90, 0x1CBA), (0x1CBD, 0x1CBF), (0x1D00, 0x1DBF), (0x1E00, 0x1F15), (0x1F18, 0x1F1D),
   (0x1F20, 0x1F45), (0x1F48, 0x1F4D), (0x1F50, 0x1F57), (0x1F59, 0x1F59), (0x1F5B, 0x1F5B),
   (0x1F5D, 0x1F5D), (0x1F5F, 0x1F7D), (0x1F80, 0x1FB4), (0x1FB6, 0x1FBC), (0x1FBE, 0x1FBE),
   (0x1FC2, 0x1FC4), (0x1FC6, 0x1FCC), (0x1FD0, 0x1FD3), (0x1FD6, 0x1FDB), (0x1FE0, 0x1FEC),
   (0x1FF2, 0x1FF4), (0x1FF6, 0x1FFC), (0x2071, 0x2071), (0x207F, 0x207F), (0x2090, 0x209C),
   (0x2102, 0x2102), (0x2107, 0x2107), (0x210A, 0x2113), (0x2115, 0x2115), (0x2119, 0x211D),
   (0x2124, 0x2124), (0x2126, 0x2126), (0x2128, 0x2128), (0x212A, 0x212D), (0x212F, 0x2134),
   (0x2139, 0x2139), (0x213C, 0x213F), (0x2145, 0x2149), (0x214E, 0x214E), (0x2160, 0x217F),
   (0x2183, 0x2184), (0x24B6, 0x24E9), (0x2C00, 0x2CE4), (0x2CEB, 0x2CEE), (0x2CF2, 0x2CF3),
   (0x2D00, 0x2D25), (0x2D27, 0x2D27), (0x2D2D, 0x2D2D), (0xA640, 0xA66D), (0xA680, 0xA69D),
   (0xA722, 0xA787), (0xA78B, 0xA78E), (0xA790, 0xA7CA), (0xA7D0, 0xA7D1), (0xA7D3, 0xA7D3),
   (0xA7D5, 0xA7D9), (0xA7F5, 0xA7F6), (0xA7F8, 0xA7FA), (0xAB30, 0xAB5A), (0xAB5C, 0xAB68),
   (0xAB70, 0xABBF), (0xFB00, 0xFB06), (0xFB13, 0xFB17), (0xFF21, 0xFF3A), (0xFF41, 0xFF5A),
   (0x10400, 0x1044F), (0x104B0, 0x104D3), (0x104D8, 0x104FB), (0x10570, 0x1057A), (0x1057C, 0x1058A),
   (0x1058C, 0x10592), (0x10594, 0x10595), (0x10597, 0x105A1), (0x105A3, 0x105B1), (0x105B3, 0x105B9),
   (0x105BB, 0x105BC), (0x10780, 0x10780), (0x10783, 0x10785), (0x10787, 0x107B0), (0x107B2, 0x107BA),
   (0x10C80, 0x10CB2), (0x10CC0, 0x10CF2), (0x118A0, 0x118DF), (0x16E40, 0x16E7F), (0x1D400, 0x1D454),
   (0x1D456, 0x1D49C), (0x1D49E, 0x1D49F), (0x1D4A2, 0x1D4A2), (0x1D4A5, 0x1D4A6), (0x1D4A9, 0x1D4AC),
   (0x1D4AE, 0x1D4B9), (0x1D4BB, 0x1D4BB), (0x1D4BD, 0x1D4C3), (0x1D4C5, 0x1D505), (0x1D507, 0x1D50A),
   (0x1D50D, 0x1D514), (0x1D516, 0x1D51C), (0x1D51E, 0x1D539), (0x1D53B, 0x1D53E), (0x1D540, 0x1D544),
   (0x1D546, 0x1D546), (0x1D54A, 0x1D550), (0x1D552, 0x1D6A5), (0x1D6A8, 0x1D6C0), (0x1D6C2, 0x1D6DA),
   (0x1D6DC, 0x1D6FA), (0x1D6FC, 0x1D714), (0x1D716, 0x1D734), (0x1D736, 0x1D74E), (0x1D750, 0x1D76E),
   (0x1D770, 0x1D788), (0x1D78A, 0x1D7A8), (0x1D7AA, 0x1D7C2), (0x1D7C4, 0x1D7CB), (0x1DF00, 0x1DF09),
   (0x1DF0B, 0x1DF1E), (0x1E900, 0x1E943), (0x1F130, 0x1F149), (0x1F150, 0x1F169), (0x1F170, 0x1F189)]

/-- The ranges of the code points with the Unicode property `Case_Ignorable`. -/
def caseIgnorableRanges : List (Nat × Nat) :=
  [(0x0027, 0x0027), (0x002E, 0x002E), (0x003A, 0x003A), (0x005E, 0x005E), (0x0060, 0x0060),
   (0x00A8, 0x00A8), (0x00AD, 0x00AD), (0x00AF, 0x00AF), (0x00B4, 0x00B4), (0x00B7, 0x00B8),
   (0x02B0, 0x036F), (0x0374, 0x0375), (0x037A, 0x037A), (0x0384, 0x0385), (0x0387, 0x0387),
   (0x0483, 0x0489), (0x0559, 0x0559), (0x055F, 0x055F), (0x0591, 0x05BD), (0x05BF, 0x05BF),
   (0x05C1, 0x05C2), (0x05C4, 0x05C5), (0x05C7, 0x05C7), (0x05F4, 0x05F4), (0x0600, 0x0605),
   (0x0610, 0x061A), (0x061C, 0x061C), (0x0640, 0x0640), (0x064B, 0x065F), (0x0670, 0x0670),
   (0x06D6, 0x06DD), (0x06DF, 0x06E8), (0x06EA, 0x06ED), (0x070F, 0x070F), (0x0711, 0x0711),
   (0x0730, 0x074A), (0x07A6, 0x07B0), (0x07EB, 0x07F5), (0x07FA, 0x07FA), (0x07FD, 0x07FD),
   (0x0816, 0x082D), (0x0859, 0x085B), (0x0888, 0x0888), (0x0890, 0x0891), (0x0898, 0x089F),
   (0x08C9, 0x0902), (0x093A, 0x093A), (0x093C, 0x093C), (0x0941, 0x0948), (0x094D, 0x094D),
   (0x0951, 0x0957), (0x0962, 0x0963), (0x0971, 0x0971), (0x0981, 0x0981), (0x09BC, 0x09BC),
   (0x09C1, 0x09C4), (0x09CD, 0x09CD), (0x09E2, 0x09E3), (0x09FE, 0x09FE), (0x0A01, 0x0A02),
   (0x0A3C, 0x0A3C), (0x0A41, 0x0A42), (0x0A47, 0x0A48), (0x0A4B, 0x0A4D), (0x0A51, 0x0A51),
   (0x0A70, 0x0A71), (0x0A75, 0x0A75), (0x0A81, 0x0A82), (0x0ABC, 0x0ABC), (0x0AC1, 0x0AC5),
   (0x0AC7, 0x0AC8), (0x0ACD, 0x0ACD), (0x0AE2, 0x0AE3), (0x0AFA, 0x0AFF), (0x0B01, 0x0B01),
   (0x0B3C, 0x0B3C), (0x0B3F, 0x0B3F), (0x0B41, 0x0B44), (0x0B4D, 0x0B4D), (0x0B55, 0x0B56),
   (0x0B62, 0x0B63), (0x0B82, 0x0B82), (0x0BC0, 0x0BC0), (0x0BCD, 0x0BCD), (0x0C00, 0x0C00),
   (0x0C04, 0x0C04), (0x0C3C, 0x0C3C), (0x0C3E, 0x0C40), (0x0C46, 0x0C48), (0x0C4A, 0x0C4D),
   (0x0C55, 0x0C56), (0x0C62, 0x0C63), (0x0C81, 0x0C81), (0x0CBC, 0x0CBC), (0x0CBF, 0x0CBF),
   (0x0CC6, 0x0CC6), (0x0CCC, 0x0CCD), (0x0CE2, 0x0CE3), (0x0D00, 0x0D01), (0x0D3B, 0x0D3C),
   (0x0D41, 0x0D44), (0x0D4D, 0x0D4D), (0x0D62, 0x0D63), (0x0D81, 0x0D81), (0x0DCA, 0x0DCA),
   (0x0DD2, 0x0DD4), (0x0DD6, 0x0DD6), (0x0E31, 0x0E31), (0x0E34, 0x0E3A), (0x0E46, 0x0E4E),
   (0x0EB1, 0x0EB1), (0x0EB4, 0x0EBC), (0x0EC6, 0x0EC6), (0x0EC8, 0x0ECD), (0x0F18, 0x0F19),
   (0x0F35, 0x0F35), (0x0F37, 0x0F37), (0x0F39, 0x0F39), (0x0F71, 0x0F7E), (0x0F80, 0x0F84),
   (0x0F86, 0x0F87), (0x0F8D, 0x0F97), (0x0F99, 0x0FBC), (0x0FC6, 0x0FC6), (0x102D, 0x1030),
   (0x1032, 0x1037), (0x1039, 0x103A), (0x103D, 0x103E), (0x1058, 0x1059), (0x105E, 0x1060),
   (0x1071, 0x1074), (0x1082, 0x1082), (0x1085, 0x1086), (0x108D, 0x108D), (0x109D, 0x109D),
   (0x10FC, 0x10FC), (0x135D, 0x135F), (0x1712, 0x1714), (0x1732, 0x1733), (0x1752, 0x1753),
   (0x1772, 0x1773), (0x17B4, 0x17B5), (0x17B7, 0x17BD), (0x17C6, 0x17C6), (0x17C9, 0x17D3),
   (0x17D7, 0x17D7), (0x17DD, 0x17DD), (0x180B, 0x180F), (0x1843, 0x1843), (0x1885, 0x1886),
   (0x18A9, 0x18A9), (0x1920, 0x1922), (0x1927, 0x1928), (0x1932, 0x1932), (0x1939, 0x193B),
   (0x1A17, 0x1A18), (0x1A1B, 0x1A1B), (0x1A56, 0x1A56), (0x1A58, 0x1A5E), (0x1A60, 0x1A60),
   (0x1A62, 0x1A62), (0x1A65, 0x1A6C), (0x1A73, 0x1A7C), (0x1A7F, 0x1A7F), (0x1AA7, 0x1AA7),
   (0x1AB0, 0x1ACE), (0x1B00, 0x1B03), (0x1B34, 0x1B34), (0x1B36, 0x1B3A), (0x1B3C, 0x1B3C),
   (0x1B42, 0x1B42), (0x1B6B, 0x1B73), (0x1B80, 0x1B81), (0x1BA2, 0x1BA5), (0x1BA8, 0x1BA9),
   (0x1BAB, 0x1BAD), (0x1BE6, 0x1BE6), (0x1BE8, 0x1BE9), (0x1BED, 0x1BED), (0x1BEF, 0x1BF1),
   (0x1C2C, 0x1C33), (0x1C36, 0x1C37), (0x1C78, 0x1C7D), (0x1CD0, 0x1CD2), (0x1CD4, 0x1CE0),
   (0x1CE2, 0x1CE8), (0x1CED, 0x1CED), (0x1CF4, 0x1CF4), (0x1CF8, 0x1CF9), (0x1D2C, 0x1D6A),
   (0x1D78, 0x1D78), (0x1D9B, 0x1DFF), (0x1FBD, 0x1FBD), (0x1FBF, 0x1FC1), (0x1FCD, 0x1FCF),
   (0x1FDD, 0x1FDF), (0x1FED, 0x1FEF), (0x1FFD, 0x1FFE), (0x200B, 0x200F), (0x2018, 0x2019),
   (0x2024, 0x2024), (0x2027, 0x2027), (0x202A, 0x202E), (0x2060, 0x2064), (0x2066, 0x206F),
   (0x2071, 0x2071), (0x207F, 0x207F), (0x2090, 0x209C), (0x20D0, 0x20F0), (0x2C7C, 0x2C7D),
   (0x2CEF, 0x2CF1), (0x2D6F, 0x2D6F), (0x2D7F, 0x2D7F), (0x2DE0, 0x2DFF), (0x2E2F, 0x2E2F),
   (0x3005, 0x3005), (0x302A, 0x302D), (0x3031, 0x3035), (0x303B, 0x303B), (0x3099, 0x309E),
   (0x30FC, 0x30FE), (0xA015, 0xA015), (0xA4F8, 0xA4FD), (0xA60C, 0xA60C), (0xA66F, 0xA672),
   (0xA674, 0xA67D), (0xA67F, 0xA67F), (0xA69C, 0xA69F), (0xA6F0, 0xA6F1), (0xA700, 0xA721),
   (0xA770, 0xA770), (0xA788, 0xA78A), (0xA7F2, 0xA7F4), (0xA7F8, 0xA7F9), (0xA802, 0xA802),
   (0xA806, 0xA806), (0xA80B, 0xA80B), (0xA825, 0xA826), (0xA82C, 0xA82C), (0xA8C4, 0xA8C5),
   (0xA8E0, 0xA8F1), (0xA8FF, 0xA8FF), (0xA926, 0xA92D), (0xA947, 0xA951), (0xA980, 0xA982),
   (0xA9B3, 0xA9B3), (0xA9B6, 0xA9B9), (0xA9BC, 0xA9BD), (0xA9CF, 0xA9CF), (0xA9E5, 0xA9E6),
   (0xAA29, 0xAA2E), (0xAA31, 0xAA32), (0xAA35, 0xAA36), (0xAA43, 0xAA43), (0xAA4C, 0xAA4C),
   (0xAA70, 0xAA70), (0xAA7C, 0xAA7C), (0xAAB0, 0xAAB0), (0xAAB2, 0xAAB4), (0xAAB7, 0xAAB8),
   (0xAABE, 0xAABF), (0xAAC1, 0xAAC1), (0xAADD, 0xAADD), (0xAAEC, 0xAAED), (0xAAF3, 0xAAF4),
   (0xAAF6, 0xAAF6), (0xAB5B, 0xAB5F), (0xAB69, 0xAB6B), (0xABE5, 0xABE5), (0xABE8, 0xABE8),
   (0xABED, 0xABED), (0xFB1E, 0xFB1E), (0xFBB2, 0xFBC2), (0xFE00, 0xFE0F), (0xFE13, 0xFE13),
   (0xFE20, 0xFE2F), (0xFE52, 0xFE52), (0xFE55, 0xFE55), (0xFEFF, 0xFEFF), (0xFF07, 0xFF07),
   (0xFF0E, 0xFF0E), (0xFF1A, 0xFF1A), (0xFF3E, 0xFF3E), (0xFF40, 0xFF40), (0xFF70, 0xFF70),
   (0xFF9E, 0xFF9F), (0xFFE3, 0xFFE3), (0xFFF9, 0xFFFB), (0x101FD, 0x101FD), (0x102E0, 0x102E0),
   (0x10376, 0x1037A), (0x10780, 0x10785), (0x10787, 0x107B0), (0x107B2, 0x107BA), (0x10A01, 0x10A03),
   (0x10A05, 0x10A06), (0x10A0C, 0x10A0F), (0x10A38, 0x10A3A), (0x10A3F, 0x10A3F), (0x10AE5, 0x10AE6),
   (0x10D24, 0x10D27), (0x10EAB, 0x10EAC), (0x10F46, 0x10F50), (0x10F82, 0x10F85), (0x11001, 0x11001),
   (0x11038, 0x11046), (0x11070, 0x11070), (0x11073, 0x11074), (0x1107F, 0x11081), (0x110B3, 0x110B6),
   (0x110B9, 0x110BA), (0x110BD, 0x110BD), (0x110C2, 0x110C2), (0x110CD, 0x110CD), (0x11100, 0x11102),
   (0x11127, 0x1112B), (0x1112D, 0x11134), (0x11173, 0x11173), (0x11180, 0x11181), (0x111B6, 0x111BE),
   (0x111C9, 0x111CC), (0x111CF, 0x111CF), (0x1122F, 0x11231), (0x11234, 0x11234), (0x11236, 0x11237),
   (0x1123E, 0x1123E), (0x112DF, 0x112DF), (0x112E3, 0x112EA), (0x11300, 0x11301), (0x1133B, 0x1133C),
   (0x11340, 0x11340), (0x11366, 0x1136C), (0x11370, 0x11374), (0x11438, 0x1143F), (0x11442, 0x11444),
   (0x11446, 0x11446), (0x1145E, 0x1145E), (0x114B3, 0x114B8), (0x114BA, 0x114BA), (0x114BF, 0x114C0),
   (0x114C2, 0x114C3), (0x115B2, 0x115B5), (0x115BC, 0x115BD), (0x115BF, 0x115C0), (0x115DC, 0x115DD),
   (0x11633, 0x1163A), (0x1163D, 0x1163D), (0x1163F, 0x11640), (0x116AB, 0x116AB), (0x116AD, 0x116AD),
   (0x116B0, 0x116B5), (0x116B7, 0x116B7), (0x1171D, 0x1171F), (0x11722, 0x11725), (0x11727, 0x1172B),
   (0x1182F, 0x11837), (0x11839, 0x1183A), (0x1193B, 0x1193C), (0x1193E, 0x1193E), (0x11943, 0x11943),
   (0x119D4, 0x119D7), (0x119DA, 0x119DB), (0x119E0, 0x119E0), (0x11A01, 0x11A0A), (0x11A33, 0x11A38),
   (0x11A3B, 0x11A3E), (0x11A47, 0x11A47), (0x11A51, 0x11A56), (0x11A59, 0x11A5B), (0x11A8A, 0x11A96),
   (0x11A98, 0x11A99), (0x11C30, 0x11C36), (0x11C38, 0x11C3D), (0x11C3F, 0x11C3F), (0x11C92, 0x11CA7),
   (0x11CAA, 0x11CB0), (0x11CB2, 0x11CB3), (0x11CB5, 0x11CB6), (0x11D31, 0x11D36), (0x11D3A, 0x11D3A),
   (0x11D3C, 0x11D3D), (0x11D3F, 0x11D45), (0x11D47, 0x11D47), (0x11D90, 0x11D91), (0x11D95, 0x11D95),
   (0x11D97, 0x11D97), (0x11EF3, 0x11EF4), (0x13430, 0x13438), (0x16AF0, 0x16AF4), (0x16B30, 0x16B36),
   (0x16B40, 0x16B43), (0x16F4F, 0x16F4F), (0x16F8F, 0x16F9F), (0x16FE0, 0x16FE1), (0x16FE3, 0x16FE4),
   (0x1AFF0, 0x1AFF3), (0x1AFF5, 0x1AFFB), (0x1AFFD, 0x1AFFE), (0x1BC9D, 0x1BC9E), (0x1BCA0, 0x1BCA3),
   (0x1CF00, 0x1CF2D), (0x1CF30, 0x1CF46), (0x1D167, 0x1D169), (0x1D173, 0x1D182), (0x1D185, 0x1D18B),
   (0x1D1AA, 0x1D1AD), (0x1D242, 0x1D244), (0x1DA00, 0x1DA36), (0x1DA3B, 0x1DA6C), (0x1DA75, 0x1DA75),
   (0x1DA84, 0x1DA84), (0x1DA9B, 0x1DA9F), (0x1DAA1, 0x1DAAF), (0x1E000, 0x1E006), (0x1E008, 0x1E018),
   (0x1E01B, 0x1E021), (0x1E023, 0x1E024), (0x1E026, 0x1E02A), (0x1E130, 0x1E13D), (0x1E2AE, 0x1E2AE),
   (0x1E2EC, 0x1E2EF), (0x1E8D0, 0x1E8D6), (0x1E944, 0x1E94B), (0x1F3FB, 0x1F3FF), (0xE0001, 0xE0001),
   (0xE0020, 0xE007F), (0xE0100, 0xE01EF)]

/-- Membership of a character in a list of code-point ranges. -/
def inRanges (ranges : List (Nat × Nat)) (c : Char) : Bool :=
  ranges.any (fun r => decide (r.1 ≤ c.toNat) && decide (c.toNat ≤ r.2))

/-- The simple lowercase mapping of one character. -/
def simpleLowercase (c : Char) : Char :=
  match lowercaseRuns.find?
      (fun r => decide (r.1 ≤ c.toNat) && decide (c.toNat ≤ r.2.1) &&
        decide ((c.toNat - r.1) % r.2.2.1 = 0)) with
  | some r => Char.ofNat (r.2.2.2 + (c.toNat - r.1))
  | none => c

/-- Whether, skipping case-ignorable characters, the next character of the list
is a cased letter. -/
def casedLetterNext : List Char → Bool
  | [] => false
  | c :: rest =>
    if inRanges caseIgnorableRanges c then casedLetterNext rest
    else inRanges casedRanges c

/-- The condition `Final_Sigma` of the Unicode case conversion: a cased letter
before (`before` is the preceding text, nearest character first) and none after. -/
def finalSigma (before after : List Char) : Bool :=
  casedLetterNext before && !casedLetterNext after

/-- The Unicode default lowercase conversion of a text, character by character:
U+0130 becomes `i` followed by U+0307, U+03A3 becomes U+03C2 in final position
and U+03C3 elsewhere, every other character takes its simple mapping. -/
def lowercaseChars (before : List Char) : List Char → List Char
  | [] => []
  | c :: rest =>
    (if c.toNat = 0x0130 then [Char.ofNat 0x0069, Char.ofNat 0x0307]
     else if c.toNat = 0x03A3 then
       [if finalSigma before rest then Char.ofNat 0x03C2 else Char.ofNat 0x03C3]
     else [simpleLowercase c]) ++ lowercaseChars (c :: before) rest

/-- The method `String.prototype.toLowerCase`: the Unicode default case
conversion, without locale tailoring. -/
def toLowerCase (s : String) : String :=
  ⟨lowercaseChars [] s.data⟩

/-- The method `Array.prototype.join`. -/
def join (xs : List String) (sep : String) : String :=
  sep.intercalate xs

/-- The property `length` of a string: its number of UTF-16 code units. -/
def jsLength (s : String) : Nat :=
  (s.data.map (fun c => if c.val.toNat < 65536 then 1 else 2)).sum

/-! ## Place records -/

/-- The data of one document of `pending_training_places`; `none` is an absent
field. -/
structure PlaceRecord where
  name : Option String := none
  cost : Option ℚ := none
  duration : Option ℚ := none
  type : Option String := none
  activities : Option (List String) := none
  caption : Option String := none
  verified : Option Bool := none
  trained : Option Bool := none
  addedAt : Option Int := none
  trainedAt : Option Int := none
  verificationReason : Option String := none
  verifiedBy : Option String := none
  verifiedAt : Option Int := none
  deriving DecidableEq, Repr

/-- One element of a feature vector. -/
inductive Feature where
  | log1p (x : ℚ) : Feature
  | num (q : ℚ) : Feature
  deriving DecidableEq, Repr

/-! ## Feature encoder -/

/-- The table `activityKeywords`, in the order of its keys. -/
def activityKeywords : List (String × List String) :=
  [("adventure", ["hiking", "climbing", "trekking", "adventure", "explore"]),
   ("cultural", ["temple", "museum", "cultural", "heritage", "traditional"]),
   ("relaxation", ["relax", "peaceful", "calm", "spa", "quiet"]),
   ("food", ["food", "restaurant", "taste", "delicious", "cuisine"]),
   ("nature", ["nature", "forest", "park", "garden", "waterfall"]),
   ("urban", ["city", "urban", "shopping", "modern", "downtown"])]

/-- The constant `text`: the activities joined by blanks, a blank and the caption,
lowercased. -/
def activityText (activities : List String) (caption : String) : String :=
  toLowerCase (join activities " " ++ " " ++ caption)

/-- The value `keywords.reduce((score, keyword) => score + (text.includes(keyword) ? 1 : 0), 0)
/ keywords.length`. -/
def keywordScore (text : String) (keywords : List String) : ℚ :=
  keywords.foldl (fun score keyword => score + (if includes text keyword then 1 else 0)) 0
    / (keywords.length : ℚ)

/-- The object `scores` after the loop over `Object.entries(activityKeywords)`. -/
def activityScores (text : String) : List (String × ℚ) :=
  activityKeywords.map (fun entry => (entry.1, keywordScore text entry.2))

/-- The expression `scores.category || 0.5`; the six categories read are all
keys written by the loop. -/
def scoreOrHalf (scores : List (String × ℚ)) (category : String) : ℚ :=
  match scores.lookup category with
  | some s => numOr s (1 / 2)
  | none => 1 / 2

/-- The function `analyzeActivitiesAndCaption`. -/
def analyzeActivitiesAndCaption (activities : List String) (caption : String) : List ℚ :=
  let text := activityText activities caption
  let scores := activityScores text
  [scoreOrHalf scores "adventure",
   scoreOrHalf scores "cultural",
   scoreOrHalf scores "relaxation",
   scoreOrHalf scores "food",
   scoreOrHalf scores "nature",
   scoreOrHalf scores "urban"]

/-- The function `encodeSeason`. -/
def encodeSeason (season : String) : List ℚ :=
  ["spring", "summer", "autumn", "winter"].map (fun s => if s = season then 1 else 0)

/-- The function `encodePersonality`; its argument is whatever
`inferPersonalityFromType` returned, compared with `===`. -/
def encodePersonality (personality : JsValue) : List ℚ :=
  ["adventurous", "cultural", "relaxed", "social"].map
    (fun p => if JsValue.string p = personality then 1 else 0)

/-- The function `encodeAgeGroup`. -/
def encodeAgeGroup (ageGroup : String) : List ℚ :=
  ["teen", "young_adult", "adult", "middle_aged", "senior"].map
    (fun ag => if ag = ageGroup then 1 else 0)

/-- The object literal `mapping` of `inferPersonalityFromType`. -/
def personalityMapping : List (String × JsValue) :=
  [("adventure", .string "adventurous"),
   ("cultural", .string "cultural"),
   ("relaxation", .string "relaxed"),
   ("food_tourism", .string "social"),
   ("nature", .string "adventurous"),
   ("urban", .string "social"),
   ("beach", .string "relaxed"),
   ("mountain", .string "adventurous"),
   ("historical", .string "cultural"),
   ("wildlife", .string "adventurous")]

/-- The function `inferPersonalityFromType`: `mapping[type] || "cultural"`. -/
def inferPersonalityFromType (type : Option String) : JsValue :=
  jsOr (objectGet personalityMapping type) (.string "cultural")

/-- The object literal `typeLabels` of `mapPlaceTypeToLabel`. -/
def typeLabels : List (String × JsValue) :=
  [("adventure", .number 0),
   ("cultural", .number 1),
   ("relaxation", .number 2),
   ("food_tourism", .number 3),
   ("nature", .number 4),
   ("urban", .number 5),
   ("beach", .number 6),
   ("mountain", .number 7),
   ("historical", .number 8),
   ("wildlife", .number 9)]

/-- The function `mapPlaceTypeToLabel`: `typeLabels[type] || 1`. -/
def mapPlaceTypeToLabel (type : Option String) : JsValue :=
  jsOr (objectGet typeLabels type) (.number 1)

/-- The expression `placeData.cost || 100` (and `placeData.duration || 1`): an
absent field reads `undefined`, which is falsy like `0`. -/
def fieldOr (field : Option ℚ) (fallback : ℚ) : ℚ :=
  match field with
  | some q => numOr q fallback
  | none => fallback

/-- The expression `placeData.activities || []`: every array is truthy. -/
def activitiesOrEmpty (activities : Option (List String)) : List String :=
  match activities with
  | some xs => xs
  | none => []

/-- The expression `s || ""` for a string or `undefined` (`placeData.caption || ""`,
`reason || ""`): the empty string is the only falsy string. -/
def stringOrEmpty (s : Option String) : String :=
  match s with
  | some str => str
  | none => ""

/-- The function `extractFeaturesFromPlace`: the pushes onto `features`, in order. -/
def extractFeaturesFromPlace (placeData : PlaceRecord) : List Feature :=
  let features : List Feature := []
  let features := features ++ [Feature.log1p (fieldOr placeData.cost 100)]
  let features := features ++ [Feature.num (fieldOr placeData.duration 1)]
  let features := features ++ [Feature.num 2]
  let features := features ++ [Feature.num 3]
  let features := features ++ [Feature.num 10]
  let features := features ++ [Feature.num 5]
  let activityScores := analyzeActivitiesAndCaption
    (activitiesOrEmpty placeData.activities) (stringOrEmpty placeData.caption)
  let features := features ++ activityScores.map Feature.num
  let features := features ++ (encodeSeason "summer").map Feature.num
  let features := features ++
    (encodePersonality (inferPersonalityFromType placeData.type)).map Feature.num
  let features := features ++ (encodeAgeGroup "adult").map Feature.num
  features

/-! ## Training-set builder -/

/-- A document snapshot of `pending_training_places`: its reference (the
document id) and its data. -/
structure PlaceDoc where
  id : String
  data : PlaceRecord
  deriving DecidableEq, Repr

/-- One element of `trainingData`. -/
structure TrainingSample where
  features : List Feature
  label : JsValue
  placeData : PlaceRecord
  deriving DecidableEq, Repr

/-- The function `prepareTrainingData`: the loop over `pendingDocs`, pushing onto
`trainingData`. Neither `extractFeaturesFromPlace` nor `mapPlaceTypeToLabel`
throws on a place record, so the `catch` of the loop body is never entered. -/
def prepareTrainingData (pendingDocs : List PlaceDoc) : List TrainingSample :=
  pendingDocs.foldl
    (fun trainingData doc =>
      let placeData := doc.data
      if placeData.verified = some false then trainingData
      else
        let features := extractFeaturesFromPlace placeData
        let label := mapPlaceTypeToLabel placeData.type
        trainingData ++ [{ features := features, label := label, placeData := placeData }])
    []

/-! ## The document store -/

/-- The document `ml_models/travel_recommendation`. -/
structure ModelMetadata where
  version : Int
  lastUpdated : Int
  totalPlaces : Nat
  trainingDataSize : Nat
  status : String
  deriving DecidableEq, Repr

/-- The document `app_config/ml_model`. -/
structure ReloadSignal where
  shouldReload : Bool
  lastUpdate : Int
  version : Int
  deriving DecidableEq, Repr

/-- The store. `places` is the collection `pending_training_places`, listed in
the order in which a query without a range filter returns its documents. -/
structure Store where
  places : List PlaceDoc := []
  mlModel : Option ModelMetadata := none
  appConfig : Option ReloadSignal := none
  deriving DecidableEq, Repr

/-- Which store operations of a run reject (`true`: the awaited call throws). -/
structure Faults where
  pendingQuery : Bool := false
  totalCount : Bool := false
  metadataSet : Bool := false
  markCommit : Bool := false
  reloadSet : Bool := false
  statsRead : Bool := false
  verifyUpdate : Bool := false
  scheduledQuery : Bool := false
  scheduledCommit : Bool := false
  deriving DecidableEq, Repr

/-- What a run reads from outside the store: the clock readings of `Date.now()`
(at the start of the run, at the metadata write after the training delay, at
the reload-signal write), the time the store substitutes for
`serverTimestamp()`, and the faults of the store. -/
structure Env where
  dateNow : Int := 0
  dateNowTrained : Int := 0
  dateNowNotified : Int := 0
  serverTime : Int := 0
  faults : Faults := {}
  deriving DecidableEq, Repr

/-- A thrown value: an error of the store client, or a
`functions.https.HttpsError` with its code and message. -/
inductive JsError where
  | storeError : JsError
  | httpsError (code : String) (message : String) : JsError
  deriving DecidableEq, Repr

/-- The ids of a list of document snapshots. -/
def docIds (docs : List PlaceDoc) : List String :=
  docs.map (fun d => d.id)

/-- The first document with the given id, if any. -/
def Store.getDoc (store : Store) (id : String) : Option PlaceRecord :=
  (store.places.find? (fun d => d.id = id)).map (fun d => d.data)

/-- A committed batch of `update` calls: every document whose reference is in
`ids` gets its data changed by `change`, all others stay. -/
def updateDocs (places : List PlaceDoc) (ids : List String)
    (change : PlaceRecord → PlaceRecord) : List PlaceDoc :=
  places.map (fun d => if d.id ∈ ids then { d with data := change d.data } else d)

/-- The query `.where("trained", "==", false).get()`. -/
def pendingTrainingQuery (store : Store) : List PlaceDoc :=
  store.places.filter (fun d => d.data.trained = some false)

/-! ## Retraining orchestrator -/

/-- The function `getTotalPlacesCount`: a failed read is caught and counts as `0`. -/
def getTotalPlacesCount (env : Env) (store : Store) : Nat :=
  if env.faults.totalCount then 0 else store.places.length

/-- The function `simulateModelTraining`: after the delay, the `set` of the model
metadata; a rejected `set` throws. -/
def simulateModelTraining (env : Env) (store : Store) (trainingData : List TrainingSample) :
    Store × Except JsError Unit :=
  let totalPlaces := getTotalPlacesCount env store
  if env.faults.metadataSet then (store, .error .storeError)
  else
    ({ store with
        mlModel := some
          { version := env.dateNowTrained
            lastUpdated := env.serverTime
            totalPlaces := totalPlaces
            trainingDataSize := trainingData.length
            status := "updated" } },
     .ok ())

/-- The function `markPlacesAsTrained`: one batch of updates, committed
atomically. The commit throws when the store rejects it or when a reference of
the batch names no document. -/
def markPlacesAsTrained (env : Env) (store : Store) (pendingDocs : List PlaceDoc) :
    Store × Except JsError Unit :=
  if env.faults.markCommit ∨ ¬ (∀ id ∈ docIds pendingDocs, id ∈ docIds store.places) then
    (store, .error .storeError)
  else
    ({ store with
        places := updateDocs store.places (docIds pendingDocs)
          (fun r => { r with trained := some true, trainedAt := some env.serverTime }) },
     .ok ())

/-- The function `notifyClientsModelUpdated`: a rejected `set` is caught. -/
def notifyClientsModelUpdated (env : Env) (store : Store) : Store :=
  if env.faults.reloadSet then store
  else
    { store with
        appConfig := some
          { shouldReload := true
            lastUpdate := env.serverTime
            version := env.dateNowNotified } }

/-- The function `triggerModelRetraining`: the four steps in order; an error of a
step is logged and thrown again, with the store as the earlier steps left it. -/
def triggerModelRetraining (env : Env) (store : Store) (pendingDocs : List PlaceDoc) :
    Store × Except JsError Unit :=
  let trainingData := prepareTrainingData pendingDocs
  match simulateModelTraining env store trainingData with
  | (store₁, .error e) => (store₁, .error e)
  | (store₁, .ok ()) =>
    match markPlacesAsTrained env store₁ pendingDocs with
    | (store₂, .error e) => (store₂, .error e)
    | (store₂, .ok ()) => (notifyClientsModelUpdated env store₂, .ok ())

/-- The `try` block of the trigger `checkModelRetraining`: the pending query, the
threshold test and the retraining; `.ok ()` is `return null`. -/
def checkModelRetrainingTry (env : Env) (store : Store) : Store × Except JsError Unit :=
  if env.faults.pendingQuery then (store, .error .storeError)
  else
    let pendingPlaces := pendingTrainingQuery store
    let pendingCount := pendingPlaces.length
    if pendingCount ≥ 1 then
      match triggerModelRetraining env store pendingPlaces with
      | (store₁, .error e) => (store₁, .error e)
      | (store₁, .ok ()) => (store₁, .ok ())
    else (store, .ok ())

/-- The trigger `checkModelRetraining`: what the `try` block returns, and `null`
as well from the `catch`, with the store as the failed block left it. -/
def checkModelRetraining (env : Env) (store : Store) : Store × Except JsError Unit :=
  match checkModelRetrainingTry env store with
  | (store₁, .ok ()) => (store₁, .ok ())
  | (store₁, .error _) => (store₁, .ok ())

/-- The payload `manualRetrain` returns. -/
structure RetrainReply where
  success : Bool
  message : String
  deriving DecidableEq, Repr

/-- The callable `manualRetrain`. `size` renders a count inside the message. -/
def manualRetrain (env : Env) (store : Store) : Store × Except JsError RetrainReply :=
  if env.faults.pendingQuery then
    (store, .error (.httpsError "internal" "Retraining failed"))
  else
    let pendingPlaces := pendingTrainingQuery store
    if pendingPlaces.isEmpty then
      (store, .ok { success := false, message := "No pending places to train" })
    else
      match triggerModelRetraining env store pendingPlaces with
      | (store₁, .error _) => (store₁, .error (.httpsError "internal" "Retraining failed"))
      | (store₁, .ok ()) =>
        (store₁, .ok
          { success := true
            message := "Model retrained with " ++ toString pendingPlaces.length ++ " new places" })

/-! ## Statistics -/

/-- The payload `getModelStats` returns; `none` is `null`. -/
structure ModelStats where
  totalPlaces : Int
  pendingPlaces : Int
  trainedPlaces : Int
  lastModelUpdate : Option Int
  modelVersion : Option Int
  needsRetraining : Bool
  deriving DecidableEq, Repr

/-- The callable `getModelStats`: three reads, then the payload. -/
def getModelStats (env : Env) (store : Store) : Except JsError ModelStats :=
  if env.faults.statsRead then .error (.httpsError "internal" "Failed to get stats")
  else
    let totalPlaces := store.places
    let pendingPlaces := pendingTrainingQuery store
    let modelInfo := store.mlModel
    .ok
      { totalPlaces := (totalPlaces.length : Int)
        pendingPlaces := (pendingPlaces.length : Int)
        trainedPlaces := (totalPlaces.length : Int) - (pendingPlaces.length : Int)
        lastModelUpdate := modelInfo.map (fun m => m.lastUpdated)
        modelVersion := modelInfo.map (fun m => m.version)
        needsRetraining := decide ((pendingPlaces.length : Int) ≥ 10) }

/-! ## Verification gate -/

/-- The argument `data` of `verifyPlace`; `none` is an absent property. -/
structure VerifyRequest where
  placeId : Option String := none
  approved : Option Bool := none
  reason : Option String := none
  deriving DecidableEq, Repr

/-- The payload `verifyPlace` returns. -/
structure VerifyReply where
  success : Bool
  message : String
  deriving DecidableEq, Repr

/-- The callable `verifyPlace`; `auth` is `context.auth`, reduced to its `uid`.
Inside the `try`, the update throws when `placeId` or `approved` is absent
(an invalid document path, an `undefined` field value), when the document does
not exist, or when the store rejects the write. -/
def verifyPlace (env : Env) (store : Store) (data : VerifyRequest) (auth : Option String) :
    Store × Except JsError VerifyReply :=
  match auth with
  | none => (store, .error (.httpsError "unauthenticated" "Must be authenticated"))
  | some uid =>
    match data.placeId, data.approved with
    | some placeId, some approved =>
      if env.faults.verifyUpdate ∨ placeId ∉ docIds store.places then
        (store, .error (.httpsError "internal" "Verification failed"))
      else
        ({ store with
            places := updateDocs store.places [placeId]
              (fun r => { r with
                verified := some approved
                verificationReason := some (stringOrEmpty data.reason)
                verifiedBy := some uid
                verifiedAt := some env.serverTime }) },
         .ok
          { success := true
            message := if approved then "Place approved" else "Place rejected" })
    | _, _ => (store, .error (.httpsError "internal" "Verification failed"))

/-- The filter of the scheduled query: `verified == false` and `addedAt` a number
at most the run time minus 24 hours. -/
def dueForVerification (now : Int) (d : PlaceDoc) : Bool :=
  decide (d.data.verified = some false) &&
    (match d.data.addedAt with
     | some t => decide (t ≤ now - 24 * 60 * 60 * 1000)
     | none => false)

/-- The order of a query with a range filter on `addedAt`: ascending `addedAt`. -/
def addedAtLe (a b : PlaceDoc) : Prop :=
  a.data.addedAt.getD 0 ≤ b.data.addedAt.getD 0

instance : DecidableRel addedAtLe :=
  fun a b => inferInstanceAs (Decidable (a.data.addedAt.getD 0 ≤ b.data.addedAt.getD 0))

/-- The query of `scheduledPlaceVerification`: the due documents, by ascending
`addedAt` (ties in store order), at most five of them. -/
def scheduledQuery (now : Int) (store : Store) : List PlaceDoc :=
  ((store.places.filter (dueForVerification now)).insertionSort addedAtLe).take 5

/-- The auto-verification criteria of `scheduledPlaceVerification`. -/
def autoVerifyCriteria (placeData : PlaceRecord) : Bool :=
  (match placeData.cost with
   | some cost => decide (cost > 10)
   | none => false) &&
  (match placeData.activities with
   | some activities => decide (activities.length > 0)
   | none => false) &&
  (match placeData.caption with
   | some caption => decide (caption ≠ "") && decide (jsLength caption > 20)
   | none => false)

/-- The scheduled job `scheduledPlaceVerification` (it returns `null` on every
path, so only the store it leaves is modelled). -/
def scheduledPlaceVerification (env : Env) (store : Store) : Store :=
  if env.faults.scheduledQuery then store
  else
    let pendingPlaces := scheduledQuery env.dateNow store
    let approved := pendingPlaces.filter (fun doc => autoVerifyCriteria doc.data)
    let verifiedCount := approved.length
    if verifiedCount > 0 then
      if env.faults.scheduledCommit then store
      else
        { store with
            places := updateDocs store.places (docIds approved)
              (fun r => { r with
                verified := some true
                verificationReason := some "Auto-verified by system"
                verifiedBy := some "system"
                verifiedAt := some env.serverTime }) }
    else store

/-! ## Example stores -/

/-- Twelve documents: eleven marked trained, one pending. -/
def statsExampleStore : Store :=
  { places :=
      (List.range 11).map
        (fun i => { id := "t" ++ toString i, data := { trained := some true } }) ++
      [{ id := "p", data := { trained := some false } }] }

/-- Two pending documents, the first of them unverified, and one document
without a `trained` field. -/
def retrainExampleStore : Store :=
  { places :=
      [{ id := "a", data := { trained := some false, verified := some false } },
       { id := "b", data := { trained := some false, type := some "beach" } },
       { id := "c", data := {} }] }

/-- The document of `verificationExampleStore` that meets the criteria. -/
def verificationExampleDoc : PlaceDoc :=
  { id := "a"
    data :=
      { addedAt := some 5, verified := some false, cost := some 11
        activities := some ["walk"], caption := some "123456789012345678901" } }

/-- Three unverified documents older than a day at run time `86400010`: one
meets the criteria, one costs 5, one has a caption of exactly 20 characters. -/
def verificationExampleStore : Store :=
  { places :=
      [verificationExampleDoc,
       { id := "b"
         data :=
           { addedAt := some 3, verified := some false, cost := some 5
             activities := some ["walk"], caption := some "123456789012345678901" } },
       { id := "c"
         data :=
           { addedAt := some 3, verified := some false, cost := some 50
             activities := some ["walk"], caption := some "12345678901234567890" } }] }

/-- The caption `PAR` followed by the Kelvin sign U+212A, an uppercase letter
outside ASCII whose lowercase is `k`. -/
def kelvinCaption : String :=
  ⟨[Char.ofNat 0x0050, Char.ofNat 0x0041, Char.ofNat 0x0052, Char.ofNat 0x212A]⟩

/-- Two documents, both marked trained: nothing is pending. -/
def idleExampleStore : Store :=
  { places :=
      [{ id := "a", data := { trained := some true } },
       { id := "b", data := { trained := some true, type := some "beach" } }] }

/-- A run in which the metadata write of the training step is rejected. -/
def metadataFaultEnv : Env :=
  { dateNowTrained := 7, serverTime := 9, faults := { metadataSet := true } }

/-- A run in which the batch commit of the finalizing step is rejected. -/
def commitFaultEnv : Env :=
  { dateNowTrained := 7, serverTime := 9, faults := { markCommit := true } }

/-- A run in which only the write of the reload signal is rejected. -/
def reloadFaultEnv : Env :=
  { dateNowTrained := 7, serverTime := 9, faults := { reloadSet := true } }

/-! ## Properties of the feature encoder and the label mapper -/

/-- The sum that `reduce` builds is the start value plus the number of matching
keywords. -/
theorem foldl_match_count (text : String) (keywords : List String) (start : ℚ) :
    keywords.foldl (fun score keyword => score + (if includes text keyword then 1 else 0)) start
      = start + ((keywords.countP (fun keyword => includes text keyword) : Nat) : ℚ) := by
  induction keywords generalizing start with
  | nil => simp
  | cons k ks ih =>
    rw [List.foldl_cons, ih, List.countP_cons]
    by_cases hk : includes text k = true
    · simp [hk]; ring
    · simp [hk]

/-- The score of a category before the `||`: matching keywords over list length. -/
theorem keywordScore_eq (text : String) (keywords : List String) :
    keywordScore text keywords
      = ((keywords.countP (fun keyword => includes text keyword) : Nat) : ℚ)
          / (keywords.length : ℚ) := by
  unfold keywordScore
  rw [foldl_match_count, zero_add]

/-- The emitted score of a category with five keywords. -/
theorem numOr_score_five (n : Nat) :
    numOr ((n : ℚ) / 5) (1 / 2) = if n = 0 then 1 / 2 else (n : ℚ) / 5 := by
  unfold numOr
  by_cases hn : n = 0
  · simp [hn]
  · have h5 : (n : ℚ) / 5 ≠ 0 := by
      have : (n : ℚ) ≠ 0 := by exact_mod_cast hn
      positivity
    simp [hn, h5]

/-- The loop of `prepareTrainingData`, started from any accumulator. -/
theorem prepareTrainingData_foldl (docs : List PlaceDoc) (acc : List TrainingSample) :
    docs.foldl
      (fun trainingData doc =>
        let placeData := doc.data
        if placeData.verified = some false then trainingData
        else
          let features := extractFeaturesFromPlace placeData
          let label := mapPlaceTypeToLabel placeData.type
          trainingData ++ [{ features := features, label := label, placeData := placeData }])
      acc
    = acc ++ ((docs.map (fun d => d.data)).filter
        (fun r => decide (r.verified ≠ some false))).map
        (fun r =>
          ({ features := extractFeaturesFromPlace r
             label := mapPlaceTypeToLabel r.type
             placeData := r } : TrainingSample)) := by
  induction docs generalizing acc with
  | nil => simp
  | cons d ds ih =>
    rw [List.foldl_cons, ih]
    by_cases hv : d.data.verified = some false
    · simp [hv]
    · simp [hv]

/-- A key that is none of the ten place types is an own property of neither table. -/
theorem placeTypes_lookup (s : String)
    (hs : s ∉ ["adventure", "cultural", "relaxation", "food_tourism", "nature", "urban",
               "beach", "mountain", "historical", "wildlife"]) :
    typeLabels.lookup s = none ∧ personalityMapping.lookup s = none := by
  simp only [List.mem_cons, List.mem_singleton, List.not_mem_nil, not_or, or_false] at hs
  obtain ⟨h1, h2, h3, h4, h5, h6, h7, h8, h9, h10⟩ := hs
  have e : ∀ t : String, s ≠ t → (s == t) = false := fun t h => by simpa using h
  constructor
  · simp [typeLabels, List.lookup, e _ h1, e _ h2, e _ h3, e _ h4, e _ h5, e _ h6, e _ h7,
      e _ h8, e _ h9, e _ h10]
  · simp [personalityMapping, List.lookup, e _ h1, e _ h2, e _ h3, e _ h4, e _ h5, e _ h6,
      e _ h7, e _ h8, e _ h9, e _ h10]

/-- Outside the ten place types and the names inherited from `Object.prototype`,
and for an absent type, both lookups fall back to their default. -/
theorem defaults_of_not_inherited (type : Option String)
    (htype : propertyKey type ∉
      ["adventure", "cultural", "relaxation", "food_tourism", "nature", "urban",
       "beach", "mountain", "historical", "wildlife"])
    (hproto : propertyKey type ∉ objectPrototypeKeys) :
    mapPlaceTypeToLabel type = JsValue.number 1 ∧
    inferPersonalityFromType type = JsValue.string "cultural" := by
  obtain ⟨hl, hp⟩ := placeTypes_lookup (propertyKey type) htype
  constructor
  · simp [mapPlaceTypeToLabel, objectGet, hl, hproto, jsOr, JsValue.truthy]
  · simp [inferPersonalityFromType, objectGet, hp, hproto, jsOr, JsValue.truthy]

/-- The samples of `prepareTrainingData`: the records not marked unverified, in
input order, each with its features and label. -/
theorem prepareTrainingData_eq (docs : List PlaceDoc) :
    prepareTrainingData docs
      = ((docs.map (fun d => d.data)).filter
          (fun r => decide (r.verified ≠ some false))).map
          (fun r =>
            ({ features := extractFeaturesFromPlace r
               label := mapPlaceTypeToLabel r.type
               placeData := r } : TrainingSample)) := by
  unfold prepareTrainingData
  rw [prepareTrainingData_foldl]
  simp

/-- C1: for every place record, also one whose optional fields are all absent,
`extractFeaturesFromPlace` returns 25 elements: the 6 numeric values, then the 6
activity scores, then the 4 season values, then the 4 personality values, then
the 5 age-group values. -/
theorem extractFeaturesFromPlace_layout (placeData : PlaceRecord) :
    (extractFeaturesFromPlace placeData).length = 25 ∧
    (extractFeaturesFromPlace placeData).take 6
      = [Feature.log1p (fieldOr placeData.cost 100), Feature.num (fieldOr placeData.duration 1),
         Feature.num 2, Feature.num 3, Feature.num 10, Feature.num 5] ∧
    ((extractFeaturesFromPlace placeData).drop 6).take 6
      = (analyzeActivitiesAndCaption (activitiesOrEmpty placeData.activities)
          (stringOrEmpty placeData.caption)).map Feature.num ∧
    (analyzeActivitiesAndCaption (activitiesOrEmpty placeData.activities)
      (stringOrEmpty placeData.caption)).length = 6 ∧
    ((extractFeaturesFromPlace placeData).drop 12).take 4
      = (encodeSeason "summer").map Feature.num ∧
    (encodeSeason "summer").length = 4 ∧
    ((extractFeaturesFromPlace placeData).drop 16).take 4
      = (encodePersonality (inferPersonalityFromType placeData.type)).map Feature.num ∧
    (encodePersonality (inferPersonalityFromType placeData.type)).length = 4 ∧
    (extractFeaturesFromPlace placeData).drop 20 = (encodeAgeGroup "adult").map Feature.num ∧
    (encodeAgeGroup "adult").length = 5 ∧
    (extractFeaturesFromPlace ({} : PlaceRecord)).length = 25 := by
  simp [extractFeaturesFromPlace, analyzeActivitiesAndCaption, encodeSeason, encodePersonality,
    encodeAgeGroup]

/-- C2: `mapPlaceTypeToLabel` on the type `adventure`, whose table entry is 0,
returns 1: the entry 0 is falsy, so `typeLabels[type] || 1` falls through to the
default. The other nine types return their table entry. -/
theorem mapPlaceTypeToLabel_adventure :
    mapPlaceTypeToLabel (some "adventure") = JsValue.number 1 ∧
    mapPlaceTypeToLabel (some "adventure") ≠ JsValue.number 0 ∧
    objectGet typeLabels (some "adventure") = JsValue.number 0 ∧
    mapPlaceTypeToLabel (some "cultural") = JsValue.number 1 ∧
    mapPlaceTypeToLabel (some "relaxation") = JsValue.number 2 ∧
    mapPlaceTypeToLabel (some "food_tourism") = JsValue.number 3 ∧
    mapPlaceTypeToLabel (some "nature") = JsValue.number 4 ∧
    mapPlaceTypeToLabel (some "urban") = JsValue.number 5 ∧
    mapPlaceTypeToLabel (some "beach") = JsValue.number 6 ∧
    mapPlaceTypeToLabel (some "mountain") = JsValue.number 7 ∧
    mapPlaceTypeToLabel (some "historical") = JsValue.number 8 ∧
    mapPlaceTypeToLabel (some "wildlife") = JsValue.number 9 := by
  decide

/-- The six emitted scores, before the arithmetic: each is the score of its
category's keyword list, or 0.5 when that score is 0. -/
theorem analyzeActivitiesAndCaption_unfold (activities : List String) (caption : String) :
    analyzeActivitiesAndCaption activities caption
      = [numOr (keywordScore (activityText activities caption)
            ["hiking", "climbing", "trekking", "adventure", "explore"]) (1 / 2),
         numOr (keywordScore (activityText activities caption)
            ["temple", "museum", "cultural", "heritage", "traditional"]) (1 / 2),
         numOr (keywordScore (activityText activities caption)
            ["relax", "peaceful", "calm", "spa", "quiet"]) (1 / 2),
         numOr (keywordScore (activityText activities caption)
            ["food", "restaurant", "taste", "delicious", "cuisine"]) (1 / 2),
         numOr (keywordScore (activityText activities caption)
            ["nature", "forest", "park", "garden", "waterfall"]) (1 / 2),
         numOr (keywordScore (activityText activities caption)
            ["city", "urban", "shopping", "modern", "downtown"]) (1 / 2)] := by
  simp only [analyzeActivitiesAndCaption, activityScores, activityKeywords, scoreOrHalf,
    List.map_cons, List.map_nil]
  simp only [List.lookup, show ("adventure" == "adventure") = true by decide,
    show ("cultural" == "adventure") = false by decide,
    show ("cultural" == "cultural") = true by decide,
    show ("relaxation" == "adventure") = false by decide,
    show ("relaxation" == "cultural") = false by decide,
    show ("relaxation" == "relaxation") = true by decide,
    show ("food" == "adventure") = false by decide,
    show ("food" == "cultural") = false by decide,
    show ("food" == "relaxation") = false by decide,
    show ("food" == "food") = true by decide,
    show ("nature" == "adventure") = false by decide,
    show ("nature" == "cultural") = false by decide,
    show ("nature" == "relaxation") = false by decide,
    show ("nature" == "food") = false by decide,
    show ("nature" == "nature") = true by decide,
    show ("urban" == "adventure") = false by decide,
    show ("urban" == "cultural") = false by decide,
    show ("urban" == "relaxation") = false by decide,
    show ("urban" == "food") = false by decide,
    show ("urban" == "nature") = false by decide,
    show ("urban" == "urban") = true by decide]

/-- The emitted score of a category with five keywords is one of six values. -/
theorem numOr_keywordScore_mem (text : String) (keywords : List String)
    (hlen : keywords.length = 5) :
    numOr (keywordScore text keywords) (1 / 2)
      ∈ [(1 / 5 : ℚ), 2 / 5, 1 / 2, 3 / 5, 4 / 5, 1] := by
  have hle : keywords.countP (fun keyword => includes text keyword) ≤ 5 := by
    rw [← hlen]
    exact List.countP_le_length _
  rw [keywordScore_eq, hlen]
  generalize keywords.countP (fun keyword => includes text keyword) = n at hle
  have h5 : ((5 : Nat) : ℚ) = 5 := by norm_num
  rw [h5, numOr_score_five]
  interval_cases n <;> norm_num

/-- The characters of the lowercased text. -/
theorem activityText_data (activities : List String) (caption : String) :
    (activityText activities caption).data
      = lowercaseChars [] (join activities " " ++ " " ++ caption).data := by
  rfl

set_option maxRecDepth 16000 in
/-- The lowercase conversion reaches beyond ASCII: the Kelvin sign becomes `k`,
the dotted capital I becomes `i` and a combining dot, and the capital sigma
becomes the final sigma at the end of a word only. -/
theorem toLowerCase_unicode :
    (toLowerCase kelvinCaption).data = "park".data ∧
    (toLowerCase ⟨[Char.ofNat 0x0048, Char.ofNat 0x0130]⟩).data
      = [Char.ofNat 0x0068, Char.ofNat 0x0069, Char.ofNat 0x0307] ∧
    (toLowerCase ⟨[Char.ofNat 0x03A3, Char.ofNat 0x0391, Char.ofNat 0x03A3]⟩).data
      = [Char.ofNat 0x03C3, Char.ofNat 0x03B1, Char.ofNat 0x03C2] ∧
    (toLowerCase "Hiking in the FOREST").data = "hiking in the forest".data := by
  refine ⟨by decide, by decide, by decide, by decide⟩

/-- The keywords of the six categories that occur in the lowercased Kelvin-sign
caption: `park` of the nature list, and no other. -/
theorem kelvin_counts :
    List.countP (fun keyword => includes (activityText [] kelvinCaption) keyword)
      ["hiking", "climbing", "trekking", "adventure", "explore"] = 0 ∧
    List.countP (fun keyword => includes (activityText [] kelvinCaption) keyword)
      ["temple", "museum", "cultural", "heritage", "traditional"] = 0 ∧
    List.countP (fun keyword => includes (activityText [] kelvinCaption) keyword)
      ["relax", "peaceful", "calm", "spa", "quiet"] = 0 ∧
    List.countP (fun keyword => includes (activityText [] kelvinCaption) keyword)
      ["food", "restaurant", "taste", "delicious", "cuisine"] = 0 ∧
    List.countP (fun keyword => includes (activityText [] kelvinCaption) keyword)
      ["nature", "forest", "park", "garden", "waterfall"] = 1 ∧
    List.countP (fun keyword => includes (activityText [] kelvinCaption) keyword)
      ["city", "urban", "shopping", "modern", "downtown"] = 0 := by
  have htext : (activityText [] kelvinCaption).data = " park".data := by
    rw [activityText_data]
    decide
  simp only [includes, htext]
  decide

/-- C3: for every activities list and caption, the six scores of
`analyzeActivitiesAndCaption` are, in the order adventure, cultural, relaxation,
food, nature, urban: 0.5 when no keyword of the category occurs in the lowercased
text `join(activities, " ") + " " + caption`, and otherwise the number of the
category's keywords that occur in it, divided by 5. The lowercasing is the
Unicode one: the caption `PAR` followed by the Kelvin sign reads `park` and gets
the nature score 1/5. -/
theorem analyzeActivitiesAndCaption_scores (activities : List String) (caption : String) :
    analyzeActivitiesAndCaption [] kelvinCaption = [1 / 2, 1 / 2, 1 / 2, 1 / 2, 1 / 5, 1 / 2] ∧
    analyzeActivitiesAndCaption activities caption
      = [["hiking", "climbing", "trekking", "adventure", "explore"],
         ["temple", "museum", "cultural", "heritage", "traditional"],
         ["relax", "peaceful", "calm", "spa", "quiet"],
         ["food", "restaurant", "taste", "delicious", "cuisine"],
         ["nature", "forest", "park", "garden", "waterfall"],
         ["city", "urban", "shopping", "modern", "downtown"]].map
        (fun keywords =>
          if keywords.countP (fun keyword =>
              decide (keyword.data <:+:
                (toLowerCase (join activities " " ++ " " ++ caption)).data)) = 0
          then (1 / 2 : ℚ)
          else ((keywords.countP (fun keyword =>
              decide (keyword.data <:+:
                (toLowerCase (join activities " " ++ " " ++ caption)).data)) : Nat) : ℚ) / 5) := by
  have hscore : ∀ (text : String) (keywords : List String), keywords.length = 5 →
      numOr (keywordScore text keywords) (1 / 2)
        = if keywords.countP (fun keyword => decide (keyword.data <:+: text.data)) = 0
          then (1 / 2 : ℚ)
          else ((keywords.countP (fun keyword => decide (keyword.data <:+: text.data)) : Nat) : ℚ)
            / 5 := by
    intro text keywords hlen
    rw [keywordScore_eq, hlen]
    exact numOr_score_five _
  constructor
  · rw [analyzeActivitiesAndCaption_unfold]
    simp only [keywordScore_eq]
    obtain ⟨h1, h2, h3, h4, h5, h6⟩ := kelvin_counts
    rw [h1, h2, h3, h4, h5, h6]
    norm_num [numOr]
  rw [analyzeActivitiesAndCaption_unfold]
  simp only [activityText, List.map_cons, List.map_nil]
  rw [hscore _ ["hiking", "climbing", "trekking", "adventure", "explore"] rfl,
    hscore _ ["temple", "museum", "cultural", "heritage", "traditional"] rfl,
    hscore _ ["relax", "peaceful", "calm", "spa", "quiet"] rfl,
    hscore _ ["food", "restaurant", "taste", "delicious", "cuisine"] rfl,
    hscore _ ["nature", "forest", "park", "garden", "waterfall"] rfl,
    hscore _ ["city", "urban", "shopping", "modern", "downtown"] rfl]

/-- C4: `prepareTrainingData` returns, in input order, one sample for each record
whose `verified` is not exactly `false` and none for a record with
`verified === false`; a sample carries the features, the label and the record.
A batch of an unverified record followed by a verified record of type `beach`
yields one sample, with label 6. -/
theorem prepareTrainingData_filters (pendingDocs : List PlaceDoc) :
    prepareTrainingData pendingDocs
      = ((pendingDocs.map (fun d => d.data)).filter
          (fun r => decide (r.verified ≠ some false))).map
          (fun r =>
            ({ features := extractFeaturesFromPlace r
               label := mapPlaceTypeToLabel r.type
               placeData := r } : TrainingSample)) ∧
    (∀ (id₁ id₂ : String) (r₁ r₂ : PlaceRecord),
      prepareTrainingData
          [{ id := id₁, data := { r₁ with verified := some false } },
           { id := id₂, data := { r₂ with verified := some true, type := some "beach" } }]
        = [{ features :=
               extractFeaturesFromPlace { r₂ with verified := some true, type := some "beach" }
             label := JsValue.number 6
             placeData := { r₂ with verified := some true, type := some "beach" } }]) := by
  refine ⟨prepareTrainingData_eq pendingDocs, ?_⟩
  intro id₁ id₂ r₁ r₂
  rw [prepareTrainingData_eq]
  have hbeach : mapPlaceTypeToLabel (some "beach") = JsValue.number 6 := by decide
  simp [hbeach]

/-- C5: for the type `constructor`, which is no place type, the lookup
`mapping[type]` finds the member inherited from `Object.prototype`, which is
truthy, so `inferPersonalityFromType` does not return `cultural` and elements
16..19 of the feature vector are all 0: the block is not one-hot. -/
theorem personality_block_constructor :
    inferPersonalityFromType (some "constructor") = JsValue.protoMember "constructor" ∧
    ((extractFeaturesFromPlace { type := some "constructor" }).drop 16).take 4
      = [Feature.num 0, Feature.num 0, Feature.num 0, Feature.num 0] := by
  decide

/-- C10: for the type string `constructor`, which is none of the ten place-type
names, `mapPlaceTypeToLabel` returns the member inherited from
`Object.prototype` and not the label 1; no number is returned at all. For
`unknown_type`, an absent type and `beach` it returns 1, 1 and 6. -/
theorem mapPlaceTypeToLabel_constructor :
    mapPlaceTypeToLabel (some "constructor") = JsValue.protoMember "constructor" ∧
    mapPlaceTypeToLabel (some "constructor") ≠ JsValue.number 1 ∧
    (∀ q : ℚ, mapPlaceTypeToLabel (some "constructor") ≠ JsValue.number q) ∧
    mapPlaceTypeToLabel (some "unknown_type") = JsValue.number 1 ∧
    mapPlaceTypeToLabel none = JsValue.number 1 ∧
    mapPlaceTypeToLabel (some "beach") = JsValue.number 6 := by
  refine ⟨by decide, by decide, ?_, by decide, by decide, by decide⟩
  intro q
  have h : mapPlaceTypeToLabel (some "constructor") = JsValue.protoMember "constructor" := by
    decide
  rw [h]
  exact fun hq => JsValue.noConfusion hq

/-! ## Properties of the store operations -/

/-- A committed batch keeps every document in place and changes exactly the data
of the documents whose id is in the batch. -/
theorem updateDocs_forall₂ (places : List PlaceDoc) (ids : List String)
    (change : PlaceRecord → PlaceRecord) :
    List.Forall₂
      (fun d d' => d'.id = d.id ∧ (d.id ∈ ids → d'.data = change d.data) ∧ (d.id ∉ ids → d' = d))
      places (updateDocs places ids change) := by
  induction places with
  | nil => exact List.Forall₂.nil
  | cons d ds ih =>
    refine List.Forall₂.cons ?_ ih
    by_cases hd : d.id ∈ ids
    · simp [hd]
    · simp [hd]

/-- A committed batch keeps the ids of the collection. -/
theorem docIds_updateDocs (places : List PlaceDoc) (ids : List String)
    (change : PlaceRecord → PlaceRecord) :
    docIds (updateDocs places ids change) = docIds places := by
  induction places with
  | nil => rfl
  | cons d ds ih =>
    have ih' : List.map (fun d => d.id) (updateDocs ds ids change)
        = List.map (fun d => d.id) ds := ih
    by_cases hd : d.id ∈ ids
    · simp [docIds, updateDocs, hd] at ih' ⊢
      exact ih'
    · simp [docIds, updateDocs, hd] at ih' ⊢
      exact ih'

/-- In a collection with distinct ids, the document read back by id after a
committed batch is the changed one when its id is in the batch, else the old one. -/
theorem getDoc_updateDocs (places : List PlaceDoc) (ids : List String)
    (change : PlaceRecord → PlaceRecord) (mlModel : Option ModelMetadata)
    (appConfig : Option ReloadSignal) (hnodup : (docIds places).Nodup)
    (d : PlaceDoc) (hd : d ∈ places) :
    Store.getDoc { places := updateDocs places ids change, mlModel := mlModel,
                   appConfig := appConfig } d.id
      = some (if d.id ∈ ids then change d.data else d.data) := by
  induction places with
  | nil => cases hd
  | cons a as ih =>
    have hnodup' : a.id ∉ docIds as ∧ (docIds as).Nodup := by
      simpa [docIds] using hnodup
    rcases List.mem_cons.mp hd with rfl | hmem
    · by_cases hin : d.id ∈ ids
      · simp [Store.getDoc, updateDocs, hin]
      · simp [Store.getDoc, updateDocs, hin]
    · have hne : a.id ≠ d.id := by
        intro heq
        apply hnodup'.1
        rw [heq]
        exact List.mem_map_of_mem (fun d => d.id) hmem
      have ih' := ih hnodup'.2 hmem
      by_cases hin : a.id ∈ ids
      · simpa [Store.getDoc, updateDocs, hin, hne] using ih'
      · simpa [Store.getDoc, updateDocs, hin, hne] using ih'

/-- In a collection with distinct ids, a document is read back by its id. -/
theorem getDoc_of_mem (store : Store) (hnodup : (docIds store.places).Nodup)
    (d : PlaceDoc) (hd : d ∈ store.places) : store.getDoc d.id = some d.data := by
  have h := getDoc_updateDocs store.places [] id store.mlModel store.appConfig hnodup d hd
  have hid : updateDocs store.places [] id = store.places := by
    simp [updateDocs]
  rw [hid] at h
  simpa using h

/-- In a collection with distinct ids, two documents with the same id are the
same document. -/
theorem eq_of_id_eq (places : List PlaceDoc) (hnodup : (docIds places).Nodup)
    (a d : PlaceDoc) (ha : a ∈ places) (hd : d ∈ places) (hid : a.id = d.id) : a = d :=
  List.inj_on_of_nodup_map hnodup ha hd hid

/-- Every document the scheduled query selects is a due document of the store. -/
theorem mem_scheduledQuery (now : Int) (store : Store) (d : PlaceDoc)
    (hd : d ∈ scheduledQuery now store) :
    d ∈ store.places ∧ dueForVerification now d = true := by
  unfold scheduledQuery at hd
  have h1 := List.mem_of_mem_take hd
  have h2 := (List.perm_insertionSort addedAtLe _).mem_iff.mp h1
  simpa [List.mem_filter] using h2

/-- C6: when its reads succeed, `getModelStats` returns `pendingPlaces` = the
number of records with `trained == false`, `trainedPlaces` = `totalPlaces` −
`pendingPlaces` (so the two add up to `totalPlaces` and `trainedPlaces` is not
negative) and `needsRetraining` = true exactly when `pendingPlaces` ≥ 10; with
12 records, 11 marked trained and one with `trained == false`, it yields
`pendingPlaces` = 1, `trainedPlaces` = 11, `needsRetraining` = false. -/
theorem getModelStats_counts (env : Env) (store : Store)
    (hread : env.faults.statsRead = false) :
    ∃ stats : ModelStats,
      getModelStats env store = .ok stats ∧
      stats.totalPlaces = (store.places.length : Int) ∧
      stats.pendingPlaces
        = ((store.places.countP (fun d => decide (d.data.trained = some false)) : Nat) : Int) ∧
      stats.trainedPlaces = stats.totalPlaces - stats.pendingPlaces ∧
      stats.trainedPlaces + stats.pendingPlaces = stats.totalPlaces ∧
      0 ≤ stats.trainedPlaces ∧
      (stats.needsRetraining = true ↔ stats.pendingPlaces ≥ 10) ∧
      (store.places.length = 12 →
        store.places.countP (fun d => decide (d.data.trained = some true)) = 11 →
        store.places.countP (fun d => decide (d.data.trained = some false)) = 1 →
        stats.pendingPlaces = 1 ∧ stats.trainedPlaces = 11 ∧ stats.needsRetraining = false) := by
  have hlen : (pendingTrainingQuery store).length
      = store.places.countP (fun d => decide (d.data.trained = some false)) := by
    unfold pendingTrainingQuery
    rw [List.countP_eq_length_filter]
  have hle : (pendingTrainingQuery store).length ≤ store.places.length := by
    unfold pendingTrainingQuery
    exact List.length_filter_le _ _
  refine ⟨{ totalPlaces := (store.places.length : Int)
            pendingPlaces := ((pendingTrainingQuery store).length : Int)
            trainedPlaces := (store.places.length : Int) - ((pendingTrainingQuery store).length : Int)
            lastModelUpdate := store.mlModel.map (fun m => m.lastUpdated)
            modelVersion := store.mlModel.map (fun m => m.version)
            needsRetraining := decide (((pendingTrainingQuery store).length : Int) ≥ 10) },
    by simp [getModelStats, hread], rfl, ?_, rfl, ?_, ?_, ?_, ?_⟩
  · simp [hlen]
  · simp
  · simp only [sub_nonneg]
    exact_mod_cast hle
  · simp
  · intro h12 _ h1
    simp only [hlen, h12, h1]
    decide

/-- C6, at the store of twelve documents with eleven trained and one pending. -/
theorem getModelStats_counts_witness :
    ∃ stats : ModelStats,
      getModelStats {} statsExampleStore = .ok stats ∧
      stats.totalPlaces = (statsExampleStore.places.length : Int) ∧
      stats.pendingPlaces
        = ((statsExampleStore.places.countP
            (fun d => decide (d.data.trained = some false)) : Nat) : Int) ∧
      stats.trainedPlaces = stats.totalPlaces - stats.pendingPlaces ∧
      stats.trainedPlaces + stats.pendingPlaces = stats.totalPlaces ∧
      0 ≤ stats.trainedPlaces ∧
      (stats.needsRetraining = true ↔ stats.pendingPlaces ≥ 10) ∧
      (statsExampleStore.places.length = 12 →
        statsExampleStore.places.countP (fun d => decide (d.data.trained = some true)) = 11 →
        statsExampleStore.places.countP (fun d => decide (d.data.trained = some false)) = 1 →
        stats.pendingPlaces = 1 ∧ stats.trainedPlaces = 11 ∧ stats.needsRetraining = false) :=
  getModelStats_counts {} statsExampleStore rfl

/-- C7: when `triggerModelRetraining` completes without error on a batch, every
record of the batch is in the store with `trained` = true afterwards, also the
records with `verified === false`, of which `prepareTrainingData` made no
sample; every record outside the batch is unchanged. -/
theorem triggerModelRetraining_marks_batch (env : Env) (store : Store)
    (pendingDocs : List PlaceDoc)
    (hok : (triggerModelRetraining env store pendingDocs).2 = .ok ()) :
    (∀ p ∈ pendingDocs,
      ∃ d' ∈ (triggerModelRetraining env store pendingDocs).1.places,
        d'.id = p.id ∧ d'.data.trained = some true) ∧
    (∀ s ∈ prepareTrainingData pendingDocs, s.placeData.verified ≠ some false) ∧
    List.Forall₂
      (fun d d' =>
        d'.id = d.id ∧
        (d.id ∈ docIds pendingDocs → d'.data.trained = some true) ∧
        (d.id ∉ docIds pendingDocs → d' = d))
      store.places (triggerModelRetraining env store pendingDocs).1.places := by
  have hplaces : (∀ id ∈ docIds pendingDocs, id ∈ docIds store.places) ∧
      (triggerModelRetraining env store pendingDocs).1.places
        = updateDocs store.places (docIds pendingDocs)
            (fun r => { r with trained := some true, trainedAt := some env.serverTime }) := by
    unfold triggerModelRetraining simulateModelTraining markPlacesAsTrained
      notifyClientsModelUpdated at hok ⊢
    by_cases hm : env.faults.metadataSet = true
    · simp [hm] at hok
    · by_cases hc : env.faults.markCommit = true
      · simp [hm, hc] at hok
      · by_cases hall : ∀ id ∈ docIds pendingDocs, id ∈ docIds store.places
        · refine ⟨hall, ?_⟩
          have hex : ¬ ∃ x ∈ docIds pendingDocs, x ∉ docIds store.places := by
            push_neg
            exact hall
          by_cases hr : env.faults.reloadSet = true
          · simp [hm, hc, hex, hr]
          · simp [hm, hc, hex, hr]
        · simp [hm, hc, hall] at hok
  obtain ⟨hall, hupd⟩ := hplaces
  have hforall := updateDocs_forall₂ store.places (docIds pendingDocs)
    (fun r => { r with trained := some true, trainedAt := some env.serverTime })
  refine ⟨?_, ?_, ?_⟩
  · intro p hp
    have hpid : p.id ∈ docIds pendingDocs := List.mem_map_of_mem (fun d => d.id) hp
    obtain ⟨d, hd, hdid⟩ := List.mem_map.mp (hall p.id hpid)
    rw [hupd]
    refine ⟨{ d with data := { d.data with trained := some true,
                                            trainedAt := some env.serverTime } }, ?_, hdid, rfl⟩
    unfold updateDocs
    refine List.mem_map.mpr ⟨d, hd, ?_⟩
    have : d.id ∈ docIds pendingDocs := by rw [hdid]; exact hpid
    simp [this]
  · intro s hs
    rw [prepareTrainingData_eq pendingDocs] at hs
    obtain ⟨r, hr, rfl⟩ := List.mem_map.mp hs
    have := (List.mem_filter.mp hr).2
    simpa using this
  · rw [hupd]
    refine List.Forall₂.imp ?_ hforall
    intro d d' h
    refine ⟨h.1, ?_, h.2.2⟩
    intro hin
    rw [h.2.1 hin]

/-- C7, at a store with two pending documents (one unverified) and one other
document, no store operation failing. -/
theorem triggerModelRetraining_marks_batch_witness :
    (∀ p ∈ pendingTrainingQuery retrainExampleStore,
      ∃ d' ∈ (triggerModelRetraining {} retrainExampleStore
          (pendingTrainingQuery retrainExampleStore)).1.places,
        d'.id = p.id ∧ d'.data.trained = some true) ∧
    (∀ s ∈ prepareTrainingData (pendingTrainingQuery retrainExampleStore),
      s.placeData.verified ≠ some false) ∧
    List.Forall₂
      (fun d d' =>
        d'.id = d.id ∧
        (d.id ∈ docIds (pendingTrainingQuery retrainExampleStore) →
          d'.data.trained = some true) ∧
        (d.id ∉ docIds (pendingTrainingQuery retrainExampleStore) → d' = d))
      retrainExampleStore.places
      (triggerModelRetraining {} retrainExampleStore
        (pendingTrainingQuery retrainExampleStore)).1.places :=
  triggerModelRetraining_marks_batch {} retrainExampleStore
    (pendingTrainingQuery retrainExampleStore) rfl

/-- The criteria of the scheduled job, spelled out field by field. -/
theorem autoVerifyCriteria_iff (r : PlaceRecord) :
    autoVerifyCriteria r = true ↔
      (∃ c, r.cost = some c ∧ c > 10) ∧
      (∃ xs, r.activities = some xs ∧ xs ≠ []) ∧
      (∃ s, r.caption = some s ∧ jsLength s > 20) := by
  have hlen : ∀ s : String, jsLength s > 20 → s ≠ "" := by
    intro s hs hempty
    rw [hempty] at hs
    exact absurd hs (by decide)
  unfold autoVerifyCriteria
  rcases r.cost with _ | c <;> rcases r.activities with _ | xs <;>
    rcases r.caption with _ | s <;> simp [List.length_pos]
  constructor
  · exact fun h => ⟨h.1.1, h.1.2, h.2.2⟩
  · exact fun h => ⟨⟨h.1, h.2.1⟩, hlen s h.2.2, h.2.2⟩

/-- In a collection with distinct ids, what a scheduled run leaves at the id of a
selected document: the approved document when no store operation failed and the
document meets the criteria, else the document as it was. -/
theorem getDoc_scheduledPlaceVerification (env : Env) (store : Store)
    (hnodup : (docIds store.places).Nodup) (d : PlaceDoc)
    (hd : d ∈ scheduledQuery env.dateNow store) :
    (scheduledPlaceVerification env store).getDoc d.id
      = some (if env.faults.scheduledQuery = false ∧ env.faults.scheduledCommit = false ∧
                autoVerifyCriteria d.data = true
              then { d.data with
                      verified := some true
                      verificationReason := some "Auto-verified by system"
                      verifiedBy := some "system"
                      verifiedAt := some env.serverTime }
              else d.data) := by
  have hmem := (mem_scheduledQuery env.dateNow store d hd).1
  have hsame := getDoc_of_mem store hnodup d hmem
  have hids : d.id ∈ docIds ((scheduledQuery env.dateNow store).filter
      (fun doc => autoVerifyCriteria doc.data)) ↔ autoVerifyCriteria d.data = true := by
    constructor
    · intro h
      obtain ⟨a, ha, haid⟩ := List.mem_map.mp h
      have ha' := List.mem_filter.mp ha
      have hamem := (mem_scheduledQuery env.dateNow store a ha'.1).1
      have : a = d := eq_of_id_eq store.places hnodup a d hamem hmem haid
      rw [← this]
      exact ha'.2
    · intro h
      have hfil : d ∈ (scheduledQuery env.dateNow store).filter
          (fun doc => autoVerifyCriteria doc.data) := List.mem_filter.mpr ⟨hd, h⟩
      exact List.mem_map_of_mem (fun d => d.id) hfil
  unfold scheduledPlaceVerification
  by_cases hq : env.faults.scheduledQuery = true
  · simp [hq, hsame]
  · by_cases hpos : ((scheduledQuery env.dateNow store).filter
        (fun doc => autoVerifyCriteria doc.data)).length > 0
    · by_cases hc : env.faults.scheduledCommit = true
      · simp [hq, hpos, hc, hsame]
      · simp only [hq, hpos, hc, if_true, if_false, Bool.false_eq_true]
        rw [getDoc_updateDocs store.places _ _ store.mlModel store.appConfig hnodup d hmem]
        by_cases hcrit : autoVerifyCriteria d.data = true
        · simp [hids.mpr hcrit, hcrit, hq, hc]
        · have hnot : d.id ∉ docIds ((scheduledQuery env.dateNow store).filter
              (fun doc => autoVerifyCriteria doc.data)) := fun h => hcrit (hids.mp h)
          simp [hnot, hcrit]
    · have hcrit : ¬ autoVerifyCriteria d.data = true := by
        intro h
        apply hpos
        exact List.length_pos_of_mem (List.mem_filter.mpr ⟨hd, h⟩)
      simp only [hq, hpos, if_false, Bool.false_eq_true]
      simp [hcrit, hsame]

/-- C8: in a run of `scheduledPlaceVerification` over a collection with distinct
ids, a selected record is set to `verified` = true, when the query and the
commit succeed, if and only if `cost > 10`, `activities` is present and
non-empty and `caption` is present with length greater than 20; a selected
record failing one of these is left unchanged, still `verified` = false. A
record with `cost` 5 and a record whose caption has length exactly 20 are left
unchanged in every run. -/
theorem scheduledPlaceVerification_criteria (env : Env) (store : Store)
    (hnodup : (docIds store.places).Nodup) (d : PlaceDoc)
    (hd : d ∈ scheduledQuery env.dateNow store) :
    (env.faults.scheduledQuery = false → env.faults.scheduledCommit = false →
      (((scheduledPlaceVerification env store).getDoc d.id).bind (fun r => r.verified)
          = some true ↔
        ((∃ c, d.data.cost = some c ∧ c > 10) ∧
         (∃ xs, d.data.activities = some xs ∧ xs ≠ []) ∧
         (∃ s, d.data.caption = some s ∧ jsLength s > 20)))) ∧
    (¬ ((∃ c, d.data.cost = some c ∧ c > 10) ∧
        (∃ xs, d.data.activities = some xs ∧ xs ≠ []) ∧
        (∃ s, d.data.caption = some s ∧ jsLength s > 20)) →
      (scheduledPlaceVerification env store).getDoc d.id = some d.data ∧
      d.data.verified = some false) ∧
    (d.data.cost = some 5 →
      (scheduledPlaceVerification env store).getDoc d.id = some d.data) ∧
    (∀ s, d.data.caption = some s → jsLength s = 20 →
      (scheduledPlaceVerification env store).getDoc d.id = some d.data) := by
  have hget := getDoc_scheduledPlaceVerification env store hnodup d hd
  have hver : d.data.verified = some false := by
    have := (mem_scheduledQuery env.dateNow store d hd).2
    unfold dueForVerification at this
    simp only [Bool.and_eq_true, decide_eq_true_eq] at this
    exact this.1
  have hkeep : ¬ autoVerifyCriteria d.data = true →
      (scheduledPlaceVerification env store).getDoc d.id = some d.data := by
    intro hcrit
    rw [hget]
    simp [hcrit]
  refine ⟨?_, ?_, ?_, ?_⟩
  · intro hq hc
    rw [← autoVerifyCriteria_iff, hget]
    by_cases hcrit : autoVerifyCriteria d.data = true
    · simp [hq, hc, hcrit]
    · simp [hcrit, hver]
  · intro hnot
    rw [← autoVerifyCriteria_iff] at hnot
    exact ⟨hkeep hnot, hver⟩
  · intro hcost
    apply hkeep
    rw [autoVerifyCriteria_iff]
    rintro ⟨⟨c, hc, hgt⟩, _⟩
    rw [hcost] at hc
    cases hc
    norm_num at hgt
  · intro s hcap hlen
    apply hkeep
    rw [autoVerifyCriteria_iff]
    rintro ⟨_, _, ⟨s', hs', hgt⟩⟩
    rw [hcap] at hs'
    cases hs'
    omega

/-- C8, at a store of three selected documents, for the one meeting the
criteria, at run time `86400010`. -/
theorem scheduledPlaceVerification_criteria_witness :
    (({ dateNow := 86400010 } : Env).faults.scheduledQuery = false →
      ({ dateNow := 86400010 } : Env).faults.scheduledCommit = false →
      (((scheduledPlaceVerification { dateNow := 86400010 } verificationExampleStore).getDoc
            verificationExampleDoc.id).bind (fun r => r.verified)
          = some true ↔
        ((∃ c, verificationExampleDoc.data.cost = some c ∧ c > 10) ∧
         (∃ xs, verificationExampleDoc.data.activities = some xs ∧ xs ≠ []) ∧
         (∃ s, verificationExampleDoc.data.caption = some s ∧ jsLength s > 20)))) ∧
    (¬ ((∃ c, verificationExampleDoc.data.cost = some c ∧ c > 10) ∧
        (∃ xs, verificationExampleDoc.data.activities = some xs ∧ xs ≠ []) ∧
        (∃ s, verificationExampleDoc.data.caption = some s ∧ jsLength s > 20)) →
      (scheduledPlaceVerification { dateNow := 86400010 } verificationExampleStore).getDoc
          verificationExampleDoc.id = some verificationExampleDoc.data ∧
      verificationExampleDoc.data.verified = some false) ∧
    (verificationExampleDoc.data.cost = some 5 →
      (scheduledPlaceVerification { dateNow := 86400010 } verificationExampleStore).getDoc
          verificationExampleDoc.id = some verificationExampleDoc.data) ∧
    (∀ s, verificationExampleDoc.data.caption = some s → jsLength s = 20 →
      (scheduledPlaceVerification { dateNow := 86400010 } verificationExampleStore).getDoc
          verificationExampleDoc.id = some verificationExampleDoc.data) :=
  scheduledPlaceVerification_criteria { dateNow := 86400010 } verificationExampleStore
    (by decide) verificationExampleDoc (by decide)

/-- C9: for every request and every store, `verifyPlace` without a caller
identity fails with the error kind `unauthenticated` and leaves the store
unchanged. -/
theorem verifyPlace_unauthenticated (env : Env) (store : Store) (data : VerifyRequest) :
    (verifyPlace env store data none).2
      = .error (.httpsError "unauthenticated" "Must be authenticated") ∧
    (verifyPlace env store data none).1 = store := by
  exact ⟨rfl, rfl⟩

/-! ## Further properties of the feature encoder -/

/-- The empty caption matches no adventure keyword. -/
theorem adventure_count_empty :
    List.countP (fun keyword => includes (activityText [] "") keyword)
      ["hiking", "climbing", "trekking", "adventure", "explore"] = 0 := by
  simp only [includes, activityText_data]
  decide

/-- The caption `hiking` matches one adventure keyword. -/
theorem adventure_count_hiking :
    List.countP (fun keyword => includes (activityText [] "hiking") keyword)
      ["hiking", "climbing", "trekking", "adventure", "explore"] = 1 := by
  simp only [includes, activityText_data]
  decide

/-- C11: a record whose cost is absent or 0 has the feature vector of the same
record with cost 100, and a record whose duration is absent or 0 has the vector
of the same record with duration 1; for any other cost `c` and duration `d` the
first two elements are `log1p(c)` and `d`. -/
theorem extractFeaturesFromPlace_defaults (r : PlaceRecord) (c d : ℚ)
    (hc : c ≠ 0) (hd : d ≠ 0) :
    extractFeaturesFromPlace { r with cost := none }
      = extractFeaturesFromPlace { r with cost := some 100 } ∧
    extractFeaturesFromPlace { r with cost := some 0 }
      = extractFeaturesFromPlace { r with cost := some 100 } ∧
    extractFeaturesFromPlace { r with duration := none }
      = extractFeaturesFromPlace { r with duration := some 1 } ∧
    extractFeaturesFromPlace { r with duration := some 0 }
      = extractFeaturesFromPlace { r with duration := some 1 } ∧
    (extractFeaturesFromPlace { r with cost := some c, duration := some d }).take 2
      = [Feature.log1p c, Feature.num d] := by
  refine ⟨?_, ?_, ?_, ?_, ?_⟩
  · simp [extractFeaturesFromPlace, fieldOr, numOr]
  · simp [extractFeaturesFromPlace, fieldOr, numOr]
  · simp [extractFeaturesFromPlace, fieldOr, numOr]
  · simp [extractFeaturesFromPlace, fieldOr, numOr]
  · simp [extractFeaturesFromPlace, fieldOr, numOr, hc, hd]

/-- C11, at the empty record with cost 50 and duration 3. -/
theorem extractFeaturesFromPlace_defaults_witness :
    extractFeaturesFromPlace { ({} : PlaceRecord) with cost := none }
      = extractFeaturesFromPlace { ({} : PlaceRecord) with cost := some 100 } ∧
    extractFeaturesFromPlace { ({} : PlaceRecord) with cost := some 0 }
      = extractFeaturesFromPlace { ({} : PlaceRecord) with cost := some 100 } ∧
    extractFeaturesFromPlace { ({} : PlaceRecord) with duration := none }
      = extractFeaturesFromPlace { ({} : PlaceRecord) with duration := some 1 } ∧
    extractFeaturesFromPlace { ({} : PlaceRecord) with duration := some 0 }
      = extractFeaturesFromPlace { ({} : PlaceRecord) with duration := some 1 } ∧
    (extractFeaturesFromPlace
        { ({} : PlaceRecord) with cost := some 50, duration := some 3 }).take 2
      = [Feature.log1p 50, Feature.num 3] :=
  extractFeaturesFromPlace_defaults {} 50 3 (by norm_num) (by norm_num)

/-- C15: for every place record, elements 2..5 of the feature vector are 2, 3, 10,
5, elements 12..15 are the season block `[0, 1, 0, 0]` (summer) and elements
20..24 are the age-group block `[0, 0, 1, 0, 0]` (adult). -/
theorem extractFeaturesFromPlace_constants (placeData : PlaceRecord) :
    ((extractFeaturesFromPlace placeData).drop 2).take 4
      = [Feature.num 2, Feature.num 3, Feature.num 10, Feature.num 5] ∧
    ((extractFeaturesFromPlace placeData).drop 12).take 4
      = [Feature.num 0, Feature.num 1, Feature.num 0, Feature.num 0] ∧
    (extractFeaturesFromPlace placeData).drop 20
      = [Feature.num 0, Feature.num 0, Feature.num 1, Feature.num 0, Feature.num 0] ∧
    (extractFeaturesFromPlace placeData).length = 25 := by
  simp [extractFeaturesFromPlace, analyzeActivitiesAndCaption, encodeSeason, encodePersonality,
    encodeAgeGroup]

/-- C17: the emitted activity score is not monotone in the matched keywords: the
caption `hiking` matches one more adventure keyword than the empty caption, and
the adventure score drops from 0.5 to 0.2. Every emitted score is one of 1/5,
2/5, 1/2, 3/5, 4/5, 1, so it is never 0 and lies in (0, 1]. -/
theorem analyzeActivitiesAndCaption_not_monotone (activities : List String) (caption : String)
    (score : ℚ) (hscore : score ∈ analyzeActivitiesAndCaption activities caption) :
    (includes (activityText [] "") "hiking" = false ∧
      includes (activityText [] "hiking") "hiking" = true ∧
      (analyzeActivitiesAndCaption [] "").head? = some (1 / 2) ∧
      (analyzeActivitiesAndCaption [] "hiking").head? = some (1 / 5)) ∧
    score ∈ [(1 / 5 : ℚ), 2 / 5, 1 / 2, 3 / 5, 4 / 5, 1] ∧
    score ≠ 0 ∧ 0 < score ∧ score ≤ 1 := by
  have hmem : score ∈ [(1 / 5 : ℚ), 2 / 5, 1 / 2, 3 / 5, 4 / 5, 1] := by
    rw [analyzeActivitiesAndCaption_unfold] at hscore
    simp only [List.mem_cons, List.mem_singleton, List.not_mem_nil, or_false] at hscore
    rcases hscore with h | h | h | h | h | h <;> rw [h] <;>
      exact numOr_keywordScore_mem _ _ rfl
  refine ⟨⟨?_, ?_, ?_, ?_⟩, hmem, ?_⟩
  · simp only [includes, activityText_data]
    decide
  · simp only [includes, activityText_data]
    decide
  · rw [analyzeActivitiesAndCaption_unfold, List.head?_cons, keywordScore_eq,
      adventure_count_empty]
    norm_num [numOr]
  · rw [analyzeActivitiesAndCaption_unfold, List.head?_cons, keywordScore_eq,
      adventure_count_hiking]
    norm_num [numOr]
  · simp only [List.mem_cons, List.mem_singleton, List.not_mem_nil, or_false] at hmem
    rcases hmem with h | h | h | h | h | h <;> rw [h] <;> norm_num

/-- C17, at the caption `hiking` and its adventure score 1/5. -/
theorem analyzeActivitiesAndCaption_not_monotone_witness :
    (includes (activityText [] "") "hiking" = false ∧
      includes (activityText [] "hiking") "hiking" = true ∧
      (analyzeActivitiesAndCaption [] "").head? = some (1 / 2) ∧
      (analyzeActivitiesAndCaption [] "hiking").head? = some (1 / 5)) ∧
    (1 / 5 : ℚ) ∈ [(1 / 5 : ℚ), 2 / 5, 1 / 2, 3 / 5, 4 / 5, 1] ∧
    (1 / 5 : ℚ) ≠ 0 ∧ 0 < (1 / 5 : ℚ) ∧ (1 / 5 : ℚ) ≤ 1 :=
  analyzeActivitiesAndCaption_not_monotone [] "hiking" (1 / 5) (by
    rw [analyzeActivitiesAndCaption_unfold, keywordScore_eq, adventure_count_hiking]
    norm_num [numOr])

/-! ## Properties of the retraining orchestrator -/

/-- Every document of the pending query is a document of the collection. -/
theorem pendingTrainingQuery_ids (store : Store) :
    ∀ id ∈ docIds (pendingTrainingQuery store), id ∈ docIds store.places := by
  intro id hid
  obtain ⟨d, hd, rfl⟩ := List.mem_map.mp hid
  exact List.mem_map_of_mem (fun d => d.id) (List.mem_filter.mp hd).1

/-- The pending query is empty exactly when no record has `trained == false`. -/
theorem pendingTrainingQuery_eq_nil (store : Store) :
    pendingTrainingQuery store = [] ↔ ∀ d ∈ store.places, d.data.trained ≠ some false := by
  unfold pendingTrainingQuery
  rw [List.filter_eq_nil_iff]
  constructor
  · intro h d hd
    simpa using h d hd
  · intro h d hd
    simpa using h d hd

/-- The outcome of `triggerModelRetraining` on a batch of documents of the
collection, by the store operation that is rejected first. -/
theorem triggerModelRetraining_cases (env : Env) (store : Store) (docs : List PlaceDoc)
    (hids : ∀ id ∈ docIds docs, id ∈ docIds store.places) :
    triggerModelRetraining env store docs
      = if env.faults.metadataSet = true then (store, .error .storeError)
        else if env.faults.markCommit = true then
          ({ store with
              mlModel := some
                { version := env.dateNowTrained
                  lastUpdated := env.serverTime
                  totalPlaces := getTotalPlacesCount env store
                  trainingDataSize := (prepareTrainingData docs).length
                  status := "updated" } },
           .error .storeError)
        else
          (notifyClientsModelUpdated env
            { places := updateDocs store.places (docIds docs)
                (fun r => { r with trained := some true, trainedAt := some env.serverTime })
              mlModel := some
                { version := env.dateNowTrained
                  lastUpdated := env.serverTime
                  totalPlaces := getTotalPlacesCount env store
                  trainingDataSize := (prepareTrainingData docs).length
                  status := "updated" }
              appConfig := store.appConfig },
           .ok ()) := by
  have hex : ¬ ∃ x ∈ docIds docs, x ∉ docIds store.places := by
    push_neg
    exact hids
  unfold triggerModelRetraining simulateModelTraining markPlacesAsTrained
  by_cases hm : env.faults.metadataSet = true
  · simp [hm]
  · by_cases hc : env.faults.markCommit = true
    · simp [hm, hc]
    · simp [hm, hc, hex]

/-- C12: if no record has `trained == false`, `checkModelRetraining` returns with
the store unchanged and `manualRetrain` leaves the store unchanged and, its
query succeeding, returns `success: false` with the message `No pending places
to train`; if such a record exists and the query succeeds, both paths run
`triggerModelRetraining` on the pending documents. -/
theorem below_threshold_no_side_effects (env : Env) (store : Store) :
    ((∀ d ∈ store.places, d.data.trained ≠ some false) →
      checkModelRetraining env store = (store, .ok ()) ∧
      (manualRetrain env store).1 = store ∧
      (env.faults.pendingQuery = false →
        manualRetrain env store
          = (store, .ok { success := false, message := "No pending places to train" }))) ∧
    ((∃ d ∈ store.places, d.data.trained = some false) → env.faults.pendingQuery = false →
      (checkModelRetraining env store).1
        = (triggerModelRetraining env store (pendingTrainingQuery store)).1 ∧
      (manualRetrain env store).1
        = (triggerModelRetraining env store (pendingTrainingQuery store)).1 ∧
      ((triggerModelRetraining env store (pendingTrainingQuery store)).2 = .ok () →
        (manualRetrain env store).2
          = .ok { success := true
                  message := "Model retrained with "
                    ++ toString (pendingTrainingQuery store).length ++ " new places" }) ∧
      (∀ e, (triggerModelRetraining env store (pendingTrainingQuery store)).2 = .error e →
        (manualRetrain env store).2 = .error (.httpsError "internal" "Retraining failed"))) := by
  constructor
  · intro hnone
    have hnil := (pendingTrainingQuery_eq_nil store).mpr hnone
    by_cases hq : env.faults.pendingQuery = true
    · simp [checkModelRetraining, checkModelRetrainingTry, manualRetrain, hq]
    · simp [checkModelRetraining, checkModelRetrainingTry, manualRetrain, hq, hnil]
  · rintro ⟨d, hd, htr⟩ hq
    have hne : pendingTrainingQuery store ≠ [] := by
      intro hnil
      exact (pendingTrainingQuery_eq_nil store).mp hnil d hd htr
    have hlen : 1 ≤ (pendingTrainingQuery store).length :=
      List.length_pos.mpr hne
    have hemp : (pendingTrainingQuery store).isEmpty = false := by
      simpa [List.isEmpty_iff] using hne
    unfold checkModelRetraining checkModelRetrainingTry manualRetrain
    simp only [hq, hemp, hlen, ge_iff_le, if_true, if_false, Bool.false_eq_true]
    rcases htrig : triggerModelRetraining env store (pendingTrainingQuery store) with
      ⟨store₁, _ | _⟩
    · simp
    · simp

/-- C12, at a store without pending documents and at a store with two of them. -/
theorem below_threshold_no_side_effects_witness :
    (checkModelRetraining {} idleExampleStore = (idleExampleStore, .ok ()) ∧
      (manualRetrain {} idleExampleStore).1 = idleExampleStore ∧
      manualRetrain {} idleExampleStore
        = (idleExampleStore,
           .ok { success := false, message := "No pending places to train" })) ∧
    ((checkModelRetraining {} retrainExampleStore).1
        = (triggerModelRetraining {} retrainExampleStore
            (pendingTrainingQuery retrainExampleStore)).1 ∧
      (manualRetrain {} retrainExampleStore).1
        = (triggerModelRetraining {} retrainExampleStore
            (pendingTrainingQuery retrainExampleStore)).1 ∧
      (manualRetrain {} retrainExampleStore).2
        = .ok { success := true
                message := "Model retrained with "
                  ++ toString (pendingTrainingQuery retrainExampleStore).length
                  ++ " new places" }) :=
  ⟨⟨((below_threshold_no_side_effects {} idleExampleStore).1 (by decide)).1,
    ((below_threshold_no_side_effects {} idleExampleStore).1 (by decide)).2.1,
    ((below_threshold_no_side_effects {} idleExampleStore).1 (by decide)).2.2 rfl⟩,
   ⟨((below_threshold_no_side_effects {} retrainExampleStore).2
      ⟨{ id := "a", data := { trained := some false, verified := some false } },
        by decide, rfl⟩ rfl).1,
    ((below_threshold_no_side_effects {} retrainExampleStore).2
      ⟨{ id := "a", data := { trained := some false, verified := some false } },
        by decide, rfl⟩ rfl).2.1,
    ((below_threshold_no_side_effects {} retrainExampleStore).2
      ⟨{ id := "a", data := { trained := some false, verified := some false } },
        by decide, rfl⟩ rfl).2.2.1 rfl⟩⟩

/-- C13, refuted as stated: when the batch commit of `markPlacesAsTrained` is
rejected, the on-create handler returns normally, but the store is not as it was
before the event: the model metadata written by `simulateModelTraining` stays. -/
theorem retraining_failure_not_atomic :
    (triggerModelRetraining commitFaultEnv retrainExampleStore
        (pendingTrainingQuery retrainExampleStore)).2 = .error .storeError ∧
    (checkModelRetraining commitFaultEnv retrainExampleStore).2 = .ok () ∧
    (checkModelRetraining commitFaultEnv retrainExampleStore).1 ≠ retrainExampleStore ∧
    retrainExampleStore.mlModel = none ∧
    (checkModelRetraining commitFaultEnv retrainExampleStore).1.mlModel
      = some { version := 7, lastUpdated := 9, totalPlaces := 3, trainingDataSize := 1,
               status := "updated" } := by
  refine ⟨rfl, rfl, ?_, rfl, rfl⟩
  intro h
  have hm := congrArg Store.mlModel h
  exact absurd hm (by decide)

/-- C13, amended: with the pending query succeeding on a non-empty pending set,
a rejected metadata write leaves the store exactly as it was; a rejected batch
commit leaves the records and the reload signal as they were, and the model
metadata as `simulateModelTraining` wrote it. In both cases the on-create
handler returns normally and `manualRetrain` reports the error `internal`. -/
theorem retraining_failure_effects (env : Env) (store : Store)
    (hquery : env.faults.pendingQuery = false)
    (hpending : ∃ d ∈ store.places, d.data.trained = some false) :
    (env.faults.metadataSet = true →
      checkModelRetraining env store = (store, .ok ()) ∧
      manualRetrain env store
        = (store, .error (.httpsError "internal" "Retraining failed"))) ∧
    (env.faults.metadataSet = false → env.faults.markCommit = true →
      (checkModelRetraining env store).2 = .ok () ∧
      (checkModelRetraining env store).1.places = store.places ∧
      (checkModelRetraining env store).1.appConfig = store.appConfig ∧
      (checkModelRetraining env store).1.mlModel
        = some { version := env.dateNowTrained
                 lastUpdated := env.serverTime
                 totalPlaces := getTotalPlacesCount env store
                 trainingDataSize := (prepareTrainingData (pendingTrainingQuery store)).length
                 status := "updated" } ∧
      (manualRetrain env store).1 = (checkModelRetraining env store).1 ∧
      (manualRetrain env store).2
        = .error (.httpsError "internal" "Retraining failed")) := by
  obtain ⟨d, hd, htr⟩ := hpending
  have hne : pendingTrainingQuery store ≠ [] := by
    intro hnil
    exact (pendingTrainingQuery_eq_nil store).mp hnil d hd htr
  have hlen : 1 ≤ (pendingTrainingQuery store).length := List.length_pos.mpr hne
  have hemp : (pendingTrainingQuery store).isEmpty = false := by
    simpa [List.isEmpty_iff] using hne
  have hcases := triggerModelRetraining_cases env store (pendingTrainingQuery store)
    (pendingTrainingQuery_ids store)
  constructor
  · intro hm
    rw [if_pos hm] at hcases
    simp [checkModelRetraining, checkModelRetrainingTry, manualRetrain, hquery, hemp, hlen,
      hcases]
  · intro hm hc
    rw [if_neg (by simp [hm]), if_pos hc] at hcases
    simp [checkModelRetraining, checkModelRetrainingTry, manualRetrain, hquery, hemp, hlen,
      hcases]

/-- C13 amended, at a run with a rejected metadata write and a run with a
rejected batch commit, on the store with two pending documents. -/
theorem retraining_failure_effects_witness :
    (checkModelRetraining metadataFaultEnv retrainExampleStore
        = (retrainExampleStore, .ok ()) ∧
      manualRetrain metadataFaultEnv retrainExampleStore
        = (retrainExampleStore, .error (.httpsError "internal" "Retraining failed"))) ∧
    ((checkModelRetraining commitFaultEnv retrainExampleStore).2 = .ok () ∧
      (checkModelRetraining commitFaultEnv retrainExampleStore).1.places
        = retrainExampleStore.places ∧
      (checkModelRetraining commitFaultEnv retrainExampleStore).1.appConfig
        = retrainExampleStore.appConfig ∧
      (checkModelRetraining commitFaultEnv retrainExampleStore).1.mlModel
        = some { version := commitFaultEnv.dateNowTrained
                 lastUpdated := commitFaultEnv.serverTime
                 totalPlaces := getTotalPlacesCount commitFaultEnv retrainExampleStore
                 trainingDataSize :=
                   (prepareTrainingData (pendingTrainingQuery retrainExampleStore)).length
                 status := "updated" } ∧
      (manualRetrain commitFaultEnv retrainExampleStore).1
        = (checkModelRetraining commitFaultEnv retrainExampleStore).1 ∧
      (manualRetrain commitFaultEnv retrainExampleStore).2
        = .error (.httpsError "internal" "Retraining failed")) :=
  ⟨(retraining_failure_effects metadataFaultEnv retrainExampleStore rfl
      ⟨{ id := "a", data := { trained := some false, verified := some false } },
        by decide, rfl⟩).1 rfl,
   (retraining_failure_effects commitFaultEnv retrainExampleStore rfl
      ⟨{ id := "a", data := { trained := some false, verified := some false } },
        by decide, rfl⟩).2 rfl rfl⟩

/-- A committed batch holds, for every document whose id is in the batch, the
changed document. -/
theorem mem_updateDocs_of_mem (places : List PlaceDoc) (ids : List String)
    (change : PlaceRecord → PlaceRecord) (d : PlaceDoc) (hd : d ∈ places)
    (hid : d.id ∈ ids) :
    ({ d with data := change d.data } : PlaceDoc) ∈ updateDocs places ids change := by
  unfold updateDocs
  refine List.mem_map.mpr ⟨d, hd, ?_⟩
  simp [hid]

/-- After a committed batch that marks its documents trained, a document with
`trained == false` is one that was so before and is outside the batch. -/
theorem updateDocs_trained (places : List PlaceDoc) (ids : List String) (time : Int)
    (d' : PlaceDoc)
    (hd' : d' ∈ updateDocs places ids
      (fun r => { r with trained := some true, trainedAt := some time })) :
    (d'.id ∈ ids → d'.data.trained = some true) ∧ (d'.id ∉ ids → d' ∈ places) := by
  unfold updateDocs at hd'
  obtain ⟨d, hd, rfl⟩ := List.mem_map.mp hd'
  by_cases hin : d.id ∈ ids
  · simp [hin]
  · simp [hin, hd]

/-- C14: if the write of the reload signal is rejected while the pending query,
the metadata write and the batch commit succeed, `triggerModelRetraining`
completes without error, `manualRetrain` returns `success: true`, the model
metadata is written, every record of the batch is marked `trained` = true, and
the reload signal stays as it was. -/
theorem reload_failure_swallowed (env : Env) (store : Store)
    (hquery : env.faults.pendingQuery = false)
    (hpending : ∃ d ∈ store.places, d.data.trained = some false)
    (hmeta : env.faults.metadataSet = false)
    (hmark : env.faults.markCommit = false)
    (hreload : env.faults.reloadSet = true) :
    (triggerModelRetraining env store (pendingTrainingQuery store)).2 = .ok () ∧
    (manualRetrain env store).2
      = .ok { success := true
              message := "Model retrained with "
                ++ toString (pendingTrainingQuery store).length ++ " new places" } ∧
    (manualRetrain env store).1
      = (triggerModelRetraining env store (pendingTrainingQuery store)).1 ∧
    (triggerModelRetraining env store (pendingTrainingQuery store)).1.mlModel
      = some { version := env.dateNowTrained
               lastUpdated := env.serverTime
               totalPlaces := getTotalPlacesCount env store
               trainingDataSize := (prepareTrainingData (pendingTrainingQuery store)).length
               status := "updated" } ∧
    (triggerModelRetraining env store (pendingTrainingQuery store)).1.appConfig
      = store.appConfig ∧
    (∀ p ∈ pendingTrainingQuery store,
      ∃ d' ∈ (triggerModelRetraining env store (pendingTrainingQuery store)).1.places,
        d'.id = p.id ∧ d'.data.trained = some true) ∧
    (∀ d' ∈ (triggerModelRetraining env store (pendingTrainingQuery store)).1.places,
      d'.id ∈ docIds (pendingTrainingQuery store) → d'.data.trained = some true) := by
  obtain ⟨d, hd, htr⟩ := hpending
  have hne : pendingTrainingQuery store ≠ [] := by
    intro hnil
    exact (pendingTrainingQuery_eq_nil store).mp hnil d hd htr
  have hemp : (pendingTrainingQuery store).isEmpty = false := by
    simpa [List.isEmpty_iff] using hne
  have hcases := triggerModelRetraining_cases env store (pendingTrainingQuery store)
    (pendingTrainingQuery_ids store)
  rw [if_neg (by simp [hmeta]), if_neg (by simp [hmark])] at hcases
  simp only [notifyClientsModelUpdated, hreload, if_true] at hcases
  refine ⟨?_, ?_, ?_, ?_, ?_, ?_, ?_⟩
  · rw [hcases]
  · simp [manualRetrain, hquery, hemp, hcases]
  · simp [manualRetrain, hquery, hemp, hcases]
  · rw [hcases]
  · rw [hcases]
  · intro p hp
    rw [hcases]
    have hpmem : p ∈ store.places := (List.mem_filter.mp hp).1
    have hpid : p.id ∈ docIds (pendingTrainingQuery store) :=
      List.mem_map_of_mem (fun d => d.id) hp
    exact ⟨{ p with data := { p.data with trained := some true,
                                           trainedAt := some env.serverTime } },
      mem_updateDocs_of_mem store.places _
        (fun r => { r with trained := some true, trainedAt := some env.serverTime })
        p hpmem hpid, rfl, rfl⟩
  · intro d' hd' hid
    rw [hcases] at hd'
    exact (updateDocs_trained store.places _ env.serverTime d' hd').1 hid

/-- C14, at the store with two pending documents, the reload-signal write
rejected. -/
theorem reload_failure_swallowed_witness :
    (triggerModelRetraining reloadFaultEnv retrainExampleStore
        (pendingTrainingQuery retrainExampleStore)).2 = .ok () ∧
    (manualRetrain reloadFaultEnv retrainExampleStore).2
      = .ok { success := true
              message := "Model retrained with "
                ++ toString (pendingTrainingQuery retrainExampleStore).length
                ++ " new places" } ∧
    (manualRetrain reloadFaultEnv retrainExampleStore).1
      = (triggerModelRetraining reloadFaultEnv retrainExampleStore
          (pendingTrainingQuery retrainExampleStore)).1 ∧
    (triggerModelRetraining reloadFaultEnv retrainExampleStore
        (pendingTrainingQuery retrainExampleStore)).1.mlModel
      = some { version := reloadFaultEnv.dateNowTrained
               lastUpdated := reloadFaultEnv.serverTime
               totalPlaces := getTotalPlacesCount reloadFaultEnv retrainExampleStore
               trainingDataSize :=
                 (prepareTrainingData (pendingTrainingQuery retrainExampleStore)).length
               status := "updated" } ∧
    (triggerModelRetraining reloadFaultEnv retrainExampleStore
        (pendingTrainingQuery retrainExampleStore)).1.appConfig
      = retrainExampleStore.appConfig ∧
    (∀ p ∈ pendingTrainingQuery retrainExampleStore,
      ∃ d' ∈ (triggerModelRetraining reloadFaultEnv retrainExampleStore
          (pendingTrainingQuery retrainExampleStore)).1.places,
        d'.id = p.id ∧ d'.data.trained = some true) ∧
    (∀ d' ∈ (triggerModelRetraining reloadFaultEnv retrainExampleStore
          (pendingTrainingQuery retrainExampleStore)).1.places,
      d'.id ∈ docIds (pendingTrainingQuery retrainExampleStore) →
        d'.data.trained = some true) :=
  reload_failure_swallowed reloadFaultEnv retrainExampleStore rfl
    ⟨{ id := "a", data := { trained := some false, verified := some false } },
      by decide, rfl⟩ rfl rfl rfl

/-- A retraining changes the collection, if at all, by the committed batch that
marks the pending documents. -/
theorem triggerModelRetraining_places (env : Env) (store : Store) :
    (triggerModelRetraining env store (pendingTrainingQuery store)).1.places = store.places ∨
    (triggerModelRetraining env store (pendingTrainingQuery store)).1.places
      = updateDocs store.places (docIds (pendingTrainingQuery store))
          (fun r => { r with trained := some true, trainedAt := some env.serverTime }) := by
  rw [triggerModelRetraining_cases env store (pendingTrainingQuery store)
    (pendingTrainingQuery_ids store)]
  by_cases hm : env.faults.metadataSet = true
  · left
    simp [hm]
  · by_cases hc : env.faults.markCommit = true
    · left
      simp [hm, hc]
    · right
      by_cases hr : env.faults.reloadSet = true
      · simp [hm, hc, hr, notifyClientsModelUpdated]
      · simp [hm, hc, hr, notifyClientsModelUpdated]

/-- The on-create handler changes the collection, if at all, by the committed
batch that marks the pending documents. -/
theorem checkModelRetraining_places (env : Env) (store : Store) :
    (checkModelRetraining env store).1.places = store.places ∨
    (checkModelRetraining env store).1.places
      = updateDocs store.places (docIds (pendingTrainingQuery store))
          (fun r => { r with trained := some true, trainedAt := some env.serverTime }) := by
  have htrig := triggerModelRetraining_places env store
  unfold checkModelRetraining checkModelRetrainingTry
  by_cases hq : env.faults.pendingQuery = true
  · left
    simp [hq]
  · by_cases hlen : (pendingTrainingQuery store).length ≥ 1
    · simp only [hq, hlen, if_true, if_false, Bool.false_eq_true]
      rcases htrig' : triggerModelRetraining env store (pendingTrainingQuery store) with
        ⟨store₁, _ | _⟩
      · rw [htrig'] at htrig
        simpa using htrig
      · rw [htrig'] at htrig
        simpa using htrig
    · left
      simp [hq, hlen]

/-- The callable `manualRetrain` changes the collection, if at all, by the
committed batch that marks the pending documents. -/
theorem manualRetrain_places (env : Env) (store : Store) :
    (manualRetrain env store).1.places = store.places ∨
    (manualRetrain env store).1.places
      = updateDocs store.places (docIds (pendingTrainingQuery store))
          (fun r => { r with trained := some true, trainedAt := some env.serverTime }) := by
  have htrig := triggerModelRetraining_places env store
  unfold manualRetrain
  by_cases hq : env.faults.pendingQuery = true
  · left
    simp [hq]
  · by_cases hemp : (pendingTrainingQuery store).isEmpty = true
    · left
      simp [hq, hemp]
    · simp only [hq, hemp, if_false, Bool.false_eq_true]
      rcases htrig' : triggerModelRetraining env store (pendingTrainingQuery store) with
        ⟨store₁, _ | _⟩
      · rw [htrig'] at htrig
        simpa using htrig
      · rw [htrig'] at htrig
        simpa using htrig

/-! ## Frame of the scheduled verification -/

/-- A batch without documents changes nothing. -/
theorem updateDocs_nil (places : List PlaceDoc) (change : PlaceRecord → PlaceRecord) :
    updateDocs places [] change = places := by
  simp [updateDocs]

/-- A committed batch, position by position, over a part of a collection. -/
theorem updateDocs_forall₂_mem (places part : List PlaceDoc) (ids : List String)
    (change : PlaceRecord → PlaceRecord) (hpart : ∀ d ∈ part, d ∈ places) :
    List.Forall₂
      (fun d d' =>
        d ∈ places ∧ d'.id = d.id ∧ (d.id ∈ ids → d'.data = change d.data) ∧
        (d.id ∉ ids → d' = d))
      part (updateDocs part ids change) := by
  induction part with
  | nil => exact List.Forall₂.nil
  | cons d ds ih =>
    refine List.Forall₂.cons ?_ (ih (fun x hx => hpart x (List.mem_cons_of_mem d hx)))
    have hd : d ∈ places := hpart d (List.mem_cons_self d ds)
    by_cases hin : d.id ∈ ids
    · simp [hin, hd]
    · simp [hin, hd]

/-- A committed batch changes no more documents than have their id in the batch. -/
theorem countP_changed_le (places : List PlaceDoc) (ids : List String)
    (change : PlaceRecord → PlaceRecord) :
    (places.zip (updateDocs places ids change)).countP (fun p => decide (p.1 ≠ p.2))
      ≤ places.countP (fun d => decide (d.id ∈ ids)) := by
  induction places with
  | nil => simp [updateDocs]
  | cons d ds ih =>
    have ih' : List.countP (fun p => decide (p.1 ≠ p.2))
        (ds.zip (List.map (fun d => if d.id ∈ ids then { d with data := change d.data } else d)
          ds))
        ≤ List.countP (fun d => decide (d.id ∈ ids)) ds := ih
    by_cases hin : d.id ∈ ids
    · simp only [updateDocs, List.map_cons, List.zip_cons_cons, hin, if_true,
        List.countP_cons, decide_True]
      have hle : (if decide (d ≠ ({ d with data := change d.data } : PlaceDoc)) = true
          then 1 else 0) ≤ 1 := by
        split <;> omega
      omega
    · simp only [updateDocs, List.map_cons, List.zip_cons_cons, hin, if_false,
        List.countP_cons, decide_False, ne_eq, not_true_eq_false]
      simpa using ih'

/-- In a collection with distinct ids, no more documents have their id in a list
than the list is long. -/
theorem countP_ids_le (places : List PlaceDoc) (ids : List String)
    (hnodup : (docIds places).Nodup) :
    places.countP (fun d => decide (d.id ∈ ids)) ≤ ids.length := by
  rw [List.countP_eq_length_filter]
  have hsub : List.Sublist
      ((places.filter (fun d => decide (d.id ∈ ids))).map (fun d => d.id))
      (docIds places) := List.Sublist.map _ (List.filter_sublist _)
  have hnd : ((places.filter (fun d => decide (d.id ∈ ids))).map (fun d => d.id)).Nodup :=
    hnodup.sublist hsub
  have hss : (places.filter (fun d => decide (d.id ∈ ids))).map (fun d => d.id) ⊆ ids := by
    intro x hx
    obtain ⟨d, hd, rfl⟩ := List.mem_map.mp hx
    simpa using (List.mem_filter.mp hd).2
  have := (List.subperm_of_subset hnd hss).length_le
  simpa using this

/-- A scheduled run leaves the model metadata and the reload signal alone and
changes the collection, if at all, by the committed batch of approvals. -/
theorem scheduledPlaceVerification_places (env : Env) (store : Store) :
    (scheduledPlaceVerification env store).mlModel = store.mlModel ∧
    (scheduledPlaceVerification env store).appConfig = store.appConfig ∧
    ∃ ids : List String,
      (ids = [] ∨ ids = docIds ((scheduledQuery env.dateNow store).filter
        (fun doc => autoVerifyCriteria doc.data))) ∧
      (scheduledPlaceVerification env store).places
        = updateDocs store.places ids
            (fun r => { r with
              verified := some true
              verificationReason := some "Auto-verified by system"
              verifiedBy := some "system"
              verifiedAt := some env.serverTime }) := by
  unfold scheduledPlaceVerification
  by_cases hq : env.faults.scheduledQuery = true
  · exact ⟨by simp [hq], by simp [hq], [], Or.inl rfl, by simp [hq, updateDocs_nil]⟩
  · by_cases hpos : ((scheduledQuery env.dateNow store).filter
        (fun doc => autoVerifyCriteria doc.data)).length > 0
    · by_cases hc : env.faults.scheduledCommit = true
      · exact ⟨by simp [hq, hc], by simp [hq, hc], [], Or.inl rfl,
          by simp [hq, hc, updateDocs_nil]⟩
      · exact ⟨by simp [hq, hc, hpos], by simp [hq, hc, hpos], _, Or.inr rfl,
          by simp [hq, hc, hpos]⟩
    · refine ⟨?_, ?_, [], Or.inl rfl, ?_⟩
      · simp only [hq, hpos, if_false, Bool.false_eq_true]
      · simp only [hq, hpos, if_false, Bool.false_eq_true]
      · simp only [hq, hpos, if_false, Bool.false_eq_true, updateDocs_nil]

/-- C16: over a collection with distinct ids, one run of
`scheduledPlaceVerification` at time `now` changes at most 5 records; every
record it changes was selected by the query, so it had `verified == false` and
`addedAt ≤ now − 24 hours` before the run; every other record, the model
metadata and the reload signal are unchanged. -/
theorem scheduledPlaceVerification_frame (env : Env) (store : Store)
    (hnodup : (docIds store.places).Nodup) :
    List.Forall₂
      (fun d d' =>
        d' = d ∨
        (d'.id = d.id ∧ d ∈ scheduledQuery env.dateNow store ∧
          d.data.verified = some false ∧
          ∃ t, d.data.addedAt = some t ∧ t ≤ env.dateNow - 24 * 60 * 60 * 1000))
      store.places (scheduledPlaceVerification env store).places ∧
    (store.places.zip (scheduledPlaceVerification env store).places).countP
      (fun p => decide (p.1 ≠ p.2)) ≤ 5 ∧
    (scheduledQuery env.dateNow store).length ≤ 5 ∧
    (scheduledPlaceVerification env store).mlModel = store.mlModel ∧
    (scheduledPlaceVerification env store).appConfig = store.appConfig := by
  obtain ⟨hmodel, hconfig, ids, hids, hplaces⟩ := scheduledPlaceVerification_places env store
  have hquery5 : (scheduledQuery env.dateNow store).length ≤ 5 := by
    unfold scheduledQuery
    exact List.length_take_le 5 _
  have hsel : ∀ d ∈ store.places, d.id ∈ ids → d ∈ scheduledQuery env.dateNow store := by
    intro d hd hin
    rcases hids with rfl | rfl
    · cases hin
    · obtain ⟨a, ha, haid⟩ := List.mem_map.mp hin
      have ha' := (List.mem_filter.mp ha).1
      have hamem := (mem_scheduledQuery env.dateNow store a ha').1
      have : a = d := eq_of_id_eq store.places hnodup a d hamem hd haid
      rw [← this]
      exact ha'
  have hlen : ids.length ≤ 5 := by
    rcases hids with rfl | rfl
    · simp
    · unfold docIds
      rw [List.length_map]
      exact le_trans (List.length_filter_le _ _) hquery5
  refine ⟨?_, ?_, hquery5, hmodel, hconfig⟩
  · rw [hplaces]
    refine List.Forall₂.imp ?_
      (updateDocs_forall₂_mem store.places store.places ids _ (fun d hd => hd))
    intro d d' h
    obtain ⟨hmem, hid, _, hout⟩ := h
    by_cases hin : d.id ∈ ids
    · right
      have hq := hsel d hmem hin
      have hdue := (mem_scheduledQuery env.dateNow store d hq).2
      unfold dueForVerification at hdue
      simp only [Bool.and_eq_true, decide_eq_true_eq] at hdue
      refine ⟨hid, hq, hdue.1, ?_⟩
      rcases hadd : d.data.addedAt with _ | t
      · rw [hadd] at hdue
        simp at hdue
      · rw [hadd] at hdue
        exact ⟨t, rfl, by simpa using hdue.2⟩
    · left
      exact hout hin
  · rw [hplaces]
    exact le_trans (countP_changed_le store.places ids _)
      (le_trans (countP_ids_le store.places ids hnodup) hlen)

/-- C16, at the store of three due documents at run time `86400010`. -/
theorem scheduledPlaceVerification_frame_witness :
    List.Forall₂
      (fun d d' =>
        d' = d ∨
        (d'.id = d.id ∧
          d ∈ scheduledQuery ({ dateNow := 86400010 } : Env).dateNow verificationExampleStore ∧
          d.data.verified = some false ∧
          ∃ t, d.data.addedAt = some t ∧
            t ≤ ({ dateNow := 86400010 } : Env).dateNow - 24 * 60 * 60 * 1000))
      verificationExampleStore.places
      (scheduledPlaceVerification { dateNow := 86400010 } verificationExampleStore).places ∧
    (verificationExampleStore.places.zip
        (scheduledPlaceVerification { dateNow := 86400010 } verificationExampleStore).places).countP
      (fun p => decide (p.1 ≠ p.2)) ≤ 5 ∧
    (scheduledQuery ({ dateNow := 86400010 } : Env).dateNow verificationExampleStore).length
      ≤ 5 ∧
    (scheduledPlaceVerification { dateNow := 86400010 } verificationExampleStore).mlModel
      = verificationExampleStore.mlModel ∧
    (scheduledPlaceVerification { dateNow := 86400010 } verificationExampleStore).appConfig
      = verificationExampleStore.appConfig :=
  scheduledPlaceVerification_frame { dateNow := 86400010 } verificationExampleStore
    (by decide)

/-! ## Pending set and statistics across retraining -/

/-- Reading a document by id depends on the collection only. -/
theorem getDoc_congr (s₁ s₂ : Store) (h : s₁.places = s₂.places) (id : String) :
    s₁.getDoc id = s₂.getDoc id := by
  unfold Store.getDoc
  rw [h]

/-- In a collection with distinct ids, a document without `trained == false` is
left as it is by the committed batch that marks the pending documents. -/
theorem not_pending_kept (store : Store) (hnodup : (docIds store.places).Nodup)
    (time : Int) (d : PlaceDoc) (hd : d ∈ store.places)
    (hnot : d.data.trained ≠ some false) :
    d.id ∉ docIds (pendingTrainingQuery store) ∧
    d ∈ updateDocs store.places (docIds (pendingTrainingQuery store))
      (fun r => { r with trained := some true, trainedAt := some time }) ∧
    Store.getDoc
      { places := updateDocs store.places (docIds (pendingTrainingQuery store))
          (fun r => { r with trained := some true, trainedAt := some time })
        mlModel := store.mlModel, appConfig := store.appConfig } d.id = some d.data := by
  have hout : d.id ∉ docIds (pendingTrainingQuery store) := by
    intro hin
    obtain ⟨a, ha, haid⟩ := List.mem_map.mp hin
    have ha' := List.mem_filter.mp ha
    have : a = d := eq_of_id_eq store.places hnodup a d ha'.1 hd haid
    rw [this] at ha'
    exact hnot (by simpa using ha'.2)
  refine ⟨hout, ?_, ?_⟩
  · unfold updateDocs
    refine List.mem_map.mpr ⟨d, hd, ?_⟩
    simp [hout]
  · rw [getDoc_updateDocs store.places _ _ store.mlModel store.appConfig hnodup d hd]
    simp [hout]

/-- C18: when its reads succeed, `getModelStats` reports as `trainedPlaces` the
number of records whose `trained` field is not exactly `false`; a record
without a `trained` field is among them, is not selected by the pending query,
and, the ids of the collection being distinct, is left unchanged by
`checkModelRetraining` and by `manualRetrain`, so it is not marked
`trained` = true. -/
theorem untrained_field_counted (env : Env) (store : Store) :
    (env.faults.statsRead = false →
      ∃ stats : ModelStats,
        getModelStats env store = .ok stats ∧
        stats.trainedPlaces
          = ((store.places.countP (fun d => decide (d.data.trained ≠ some false)) : Nat)
              : Int)) ∧
    (∀ d ∈ store.places, d.data.trained = none →
      decide (d.data.trained ≠ some false) = true ∧
      d ∉ pendingTrainingQuery store ∧
      ((docIds store.places).Nodup → ∀ run : Env,
        d ∈ (checkModelRetraining run store).1.places ∧
        (checkModelRetraining run store).1.getDoc d.id = some d.data ∧
        d ∈ (manualRetrain run store).1.places ∧
        (manualRetrain run store).1.getDoc d.id = some d.data)) := by
  constructor
  · intro hread
    refine ⟨{ totalPlaces := (store.places.length : Int)
              pendingPlaces := ((pendingTrainingQuery store).length : Int)
              trainedPlaces :=
                (store.places.length : Int) - ((pendingTrainingQuery store).length : Int)
              lastModelUpdate := store.mlModel.map (fun m => m.lastUpdated)
              modelVersion := store.mlModel.map (fun m => m.version)
              needsRetraining := decide (((pendingTrainingQuery store).length : Int) ≥ 10) },
      by simp [getModelStats, hread], ?_⟩
    have hlen : (pendingTrainingQuery store).length
        = store.places.countP (fun d => decide (d.data.trained = some false)) := by
      unfold pendingTrainingQuery
      rw [List.countP_eq_length_filter]
    have hsplit := List.length_eq_countP_add_countP
      (fun d : PlaceDoc => decide (d.data.trained = some false)) store.places
    have hneg : store.places.countP
          (fun a => decide ¬ (decide (a.data.trained = some false) = true))
        = store.places.countP (fun d => decide (d.data.trained ≠ some false)) := by
      congr 1
      funext a
      simp
    rw [hneg] at hsplit
    simp only [hlen]
    omega
  · intro d hd hnone
    have hnot : d.data.trained ≠ some false := by
      rw [hnone]
      exact fun h => Option.noConfusion h
    refine ⟨by simpa using hnot, ?_, ?_⟩
    · intro hin
      have := (List.mem_filter.mp hin).2
      exact hnot (by simpa using this)
    · intro hnodup run
      have hsame := getDoc_of_mem store hnodup d hd
      have hkept := not_pending_kept store hnodup run.serverTime d hd hnot
      have hcheck : d ∈ (checkModelRetraining run store).1.places ∧
          (checkModelRetraining run store).1.getDoc d.id = some d.data := by
        rcases checkModelRetraining_places run store with h | h
        · refine ⟨by rw [h]; exact hd, ?_⟩
          rw [getDoc_congr _ store h]
          exact hsame
        · refine ⟨by rw [h]; exact hkept.2.1, ?_⟩
          rw [getDoc_congr _
            { places := updateDocs store.places (docIds (pendingTrainingQuery store))
                (fun r => { r with trained := some true, trainedAt := some run.serverTime })
              mlModel := store.mlModel, appConfig := store.appConfig } h]
          exact hkept.2.2
      have hmanual : d ∈ (manualRetrain run store).1.places ∧
          (manualRetrain run store).1.getDoc d.id = some d.data := by
        rcases manualRetrain_places run store with h | h
        · refine ⟨by rw [h]; exact hd, ?_⟩
          rw [getDoc_congr _ store h]
          exact hsame
        · refine ⟨by rw [h]; exact hkept.2.1, ?_⟩
          rw [getDoc_congr _
            { places := updateDocs store.places (docIds (pendingTrainingQuery store))
                (fun r => { r with trained := some true, trainedAt := some run.serverTime })
              mlModel := store.mlModel, appConfig := store.appConfig } h]
          exact hkept.2.2
      exact ⟨hcheck.1, hcheck.2, hmanual.1, hmanual.2⟩

/-- C18, at the store with two pending documents and the document `c` without a
`trained` field. -/
theorem untrained_field_counted_witness :
    (∃ stats : ModelStats,
      getModelStats {} retrainExampleStore = .ok stats ∧
      stats.trainedPlaces
        = ((retrainExampleStore.places.countP
              (fun d => decide (d.data.trained ≠ some false)) : Nat) : Int)) ∧
    (decide (({ id := "c", data := {} } : PlaceDoc).data.trained ≠ some false) = true ∧
      ({ id := "c", data := {} } : PlaceDoc) ∉ pendingTrainingQuery retrainExampleStore ∧
      ∀ run : Env,
        ({ id := "c", data := {} } : PlaceDoc)
          ∈ (checkModelRetraining run retrainExampleStore).1.places ∧
        (checkModelRetraining run retrainExampleStore).1.getDoc
          ({ id := "c", data := {} } : PlaceDoc).id
          = some ({ id := "c", data := {} } : PlaceDoc).data ∧
        ({ id := "c", data := {} } : PlaceDoc)
          ∈ (manualRetrain run retrainExampleStore).1.places ∧
        (manualRetrain run retrainExampleStore).1.getDoc
          ({ id := "c", data := {} } : PlaceDoc).id
          = some ({ id := "c", data := {} } : PlaceDoc).data) :=
  ⟨(untrained_field_counted {} retrainExampleStore).1 rfl,
   ((untrained_field_counted {} retrainExampleStore).2
      { id := "c", data := {} } (by decide) rfl).1,
   ((untrained_field_counted {} retrainExampleStore).2
      { id := "c", data := {} } (by decide) rfl).2.1,
   ((untrained_field_counted {} retrainExampleStore).2
      { id := "c", data := {} } (by decide) rfl).2.2 (by decide)⟩

/-- With its query succeeding on an empty pending set, `manualRetrain` declines
and leaves the store as it is. -/
theorem manualRetrain_idle (env : Env) (store : Store)
    (hquery : env.faults.pendingQuery = false) (hnil : pendingTrainingQuery store = []) :
    manualRetrain env store
      = (store, .ok { success := false, message := "No pending places to train" }) := by
  simp [manualRetrain, hquery, hnil]

/-- C19: after a `manualRetrain` that returns `success: true`, no record of the
store has `trained == false`; `getModelStats`, its reads succeeding, reports
`pendingPlaces` = 0 and `needsRetraining` = false; a second `manualRetrain`,
its query succeeding, returns `success: false` with the message `No pending
places to train` and leaves the store unchanged. -/
theorem manualRetrain_consumes_pending (env next : Env) (store : Store) (reply : RetrainReply)
    (hreply : (manualRetrain env store).2 = .ok reply) (hsuccess : reply.success = true)
    (hread : next.faults.statsRead = false) (hquery : next.faults.pendingQuery = false) :
    (∀ d ∈ (manualRetrain env store).1.places, d.data.trained ≠ some false) ∧
    (∃ stats : ModelStats,
      getModelStats next (manualRetrain env store).1 = .ok stats ∧
      stats.pendingPlaces = 0 ∧ stats.needsRetraining = false) ∧
    manualRetrain next (manualRetrain env store).1
      = ((manualRetrain env store).1,
         .ok { success := false, message := "No pending places to train" }) := by
  have hplaces : (manualRetrain env store).1.places
      = updateDocs store.places (docIds (pendingTrainingQuery store))
          (fun r => { r with trained := some true, trainedAt := some env.serverTime }) := by
    have hcases := triggerModelRetraining_cases env store (pendingTrainingQuery store)
      (pendingTrainingQuery_ids store)
    unfold manualRetrain at hreply ⊢
    by_cases hq : env.faults.pendingQuery = true
    · simp [hq] at hreply
    · by_cases hemp : (pendingTrainingQuery store).isEmpty = true
      · simp only [hq, hemp, if_true, if_false, Bool.false_eq_true] at hreply
        have hfalse : reply.success = false := by
          injection hreply with h
          rw [← h]
        rw [hfalse] at hsuccess
        cases hsuccess
      · by_cases hm : env.faults.metadataSet = true
        · rw [if_pos hm] at hcases
          simp [hq, hemp, hcases] at hreply
        · by_cases hc : env.faults.markCommit = true
          · rw [if_neg hm, if_pos hc] at hcases
            simp [hq, hemp, hcases] at hreply
          · rw [if_neg hm, if_neg hc] at hcases
            by_cases hr : env.faults.reloadSet = true
            · simp [hq, hemp, hcases, notifyClientsModelUpdated, hr]
            · simp [hq, hemp, hcases, notifyClientsModelUpdated, hr]
  have hnone : ∀ d ∈ (manualRetrain env store).1.places, d.data.trained ≠ some false := by
    intro d' hd' hfalse
    rw [hplaces] at hd'
    have h := updateDocs_trained store.places _ env.serverTime d' hd'
    by_cases hin : d'.id ∈ docIds (pendingTrainingQuery store)
    · have htrue := h.1 hin
      rw [hfalse] at htrue
      cases htrue
    · have hmem := h.2 hin
      apply hin
      have hpend : d' ∈ pendingTrainingQuery store :=
        List.mem_filter.mpr ⟨hmem, by simpa using hfalse⟩
      exact List.mem_map_of_mem (fun d => d.id) hpend
  have hnil : pendingTrainingQuery (manualRetrain env store).1 = [] :=
    (pendingTrainingQuery_eq_nil _).mpr hnone
  refine ⟨hnone, ?_, ?_⟩
  · refine ⟨{ totalPlaces := ((manualRetrain env store).1.places.length : Int)
              pendingPlaces := 0
              trainedPlaces := ((manualRetrain env store).1.places.length : Int) - 0
              lastModelUpdate := (manualRetrain env store).1.mlModel.map (fun m => m.lastUpdated)
              modelVersion := (manualRetrain env store).1.mlModel.map (fun m => m.version)
              needsRetraining := false },
      by simp [getModelStats, hread, hnil], rfl, rfl⟩
  · exact manualRetrain_idle next _ hquery hnil

/-- C19, at the store with two pending documents, no store operation failing. -/
theorem manualRetrain_consumes_pending_witness :
    (∀ d ∈ (manualRetrain {} retrainExampleStore).1.places, d.data.trained ≠ some false) ∧
    (∃ stats : ModelStats,
      getModelStats {} (manualRetrain {} retrainExampleStore).1 = .ok stats ∧
      stats.pendingPlaces = 0 ∧ stats.needsRetraining = false) ∧
    manualRetrain {} (manualRetrain {} retrainExampleStore).1
      = ((manualRetrain {} retrainExampleStore).1,
         .ok { success := false, message := "No pending places to train" }) :=
  manualRetrain_consumes_pending {} {} retrainExampleStore
    { success := true
      message := "Model retrained with "
        ++ toString (pendingTrainingQuery retrainExampleStore).length ++ " new places" }
    rfl rfl rfl rfl

end MoodTravel
